import Mathlib

/-!
Verification development for the gator feed-aggregator repository.

The definitions below are shallow embeddings of the repository's Go code:

* `parseRawTime`, the time normalizer (`internal/configuration/configuration.go`,
  `parseRawTime`), together with a model of the Go standard library
  `time.Parse` / `time.Format` restricted to the seven RFC layouts the
  normalizer uses;
* `FetchFeed`'s post-parse HTML-entity decoding step (`internal/rss/rss.go`);
* the configuration file operations `SetUser` and `Read`
  (`internal/configuration/configuration.go`);
* the feed-selection query `GetNextFeedToFetch` (SQL source
  `src/unnamed/part_003`) and the ingestion cycle `scrapeFeeds`
  (`internal/configuration/configuration.go`).

External collaborators (the PostgreSQL store, the network, the file system)
are modelled as explicit state or as environment-supplied outcomes, as the
spec describes them at the boundary.
-/

/-! ## Characters and digits -/

/-- Decimal-digit test, modelling Go's character class for `getnum`. -/
def isDigitChar (c : Char) : Bool := 48 ≤ c.toNat && c.toNat ≤ 57

/-- Uppercase-letter test, used by the time-zone abbreviation scanner. -/
def isUpperChar (c : Char) : Bool := 65 ≤ c.toNat && c.toNat ≤ 90

/-- Numeric value of a decimal digit character. -/
def digitVal (c : Char) : Nat := c.toNat - 48

/-- The decimal digit character for a value below ten. -/
def digitChar (d : Nat) : Char := Char.ofNat (48 + d)

/-- Value of a digit string read most-significant first. -/
def digitsValue (l : List Char) : Nat := l.foldl (fun a c => a * 10 + digitVal c) 0

/-- Fixed-width two-digit read, modelling Go's `getnum` with `fixed = true`
as used for the zero-padded layout elements `02`, `04`, `05`, `06`, `15`. -/
def getnum2 : List Char → Option (Nat × List Char)
  | c1 :: c2 :: rest =>
    if isDigitChar c1 && isDigitChar c2 then
      some (digitVal c1 * 10 + digitVal c2, rest)
    else
      none
  | _ => none

/-- Fixed-width four-digit read, modelling Go's year read for `2006`. -/
def getnum4 : List Char → Option (Nat × List Char)
  | c1 :: c2 :: c3 :: c4 :: rest =>
    if isDigitChar c1 && isDigitChar c2 && isDigitChar c3 && isDigitChar c4 then
      some (digitVal c1 * 1000 + digitVal c2 * 100 + digitVal c3 * 10 + digitVal c4, rest)
    else
      none
  | _ => none

/-- Two-digit zero-padded decimal output, as Go's `appendInt(b, v, 2)`. -/
def format2 (n : Nat) : List Char := [digitChar (n / 10), digitChar (n % 10)]

/-- Four-digit zero-padded decimal output, as Go's `appendInt(b, v, 4)`. -/
def format4 (n : Nat) : List Char :=
  [digitChar (n / 1000), digitChar (n / 100 % 10), digitChar (n / 10 % 10), digitChar (n % 10)]

/-- Match a literal character sequence at the head of the input and return
the remainder, as Go's layout-literal matching does. -/
def stripPre : List Char → List Char → Option (List Char)
  | [], l => some l
  | _ :: _, [] => none
  | p :: ps, c :: cs => if c = p then stripPre ps cs else none

/-- Try a list of names in order; on the first name that is a prefix of the
input, return its associated value and the remaining input.  This models
Go's `lookup` over month and day names. -/
def tryNames : List (String × Nat) → List Char → Option (Nat × List Char)
  | [], _ => none
  | (nm, v) :: rest, l =>
    match stripPre nm.toList l with
    | some r => some (v, r)
    | none => tryNames rest l

/-! ## The Go time model

`GoTime` is the shallow embedding of Go's `time.Time` used by this
development: broken-down civil fields plus a zone offset (seconds east of
UTC) and a zone name.  The model fixes the process-local time zone to UTC,
so an unrecognized zone abbreviation parses to a fabricated zone with
offset `0`, exactly as Go behaves when the abbreviation does not match the
local zone. -/

structure GoTime where
  year : Nat := 0
  month : Nat := 1
  day : Nat := 1
  hour : Nat := 0
  minute : Nat := 0
  second : Nat := 0
  nsec : Nat := 0
  offset : Int := 0
  zoneName : String := ""
deriving DecidableEq, Repr

/-- Leap-year test on the proleptic Gregorian calendar, as Go's
`isLeap`. -/
def isLeapYear (y : Nat) : Bool := (y % 4 == 0 && y % 100 != 0) || y % 400 == 0

/-- Number of days in a month, as Go's `daysIn`. -/
def daysInMonth (y m : Nat) : Nat :=
  if m = 2 then (if isLeapYear y then 29 else 28)
  else if m = 4 ∨ m = 6 ∨ m = 9 ∨ m = 11 then 30
  else 31

/-- Days since 1970-01-01 of a civil date (the standard civil-from-days
inverse), used for week-day computation and for instant comparison. -/
def daysFromCivil (y m d : Nat) : Int :=
  let y' : Int := if m ≤ 2 then (y : Int) - 1 else (y : Int)
  let era : Int := (if 0 ≤ y' then y' else y' - 399) / 400
  let yoe : Int := y' - era * 400
  let mp : Int := ((m : Int) + 9) % 12
  let doy : Int := (153 * mp + 2) / 5 + (d : Int) - 1
  let doe : Int := yoe * 365 + yoe / 4 - yoe / 100 + doy
  era * 146097 + doe - 719468

/-- Seconds since the Unix epoch of the absolute instant a `GoTime`
denotes (wall fields minus the zone offset). -/
def toEpochSec (t : GoTime) : Int :=
  daysFromCivil t.year t.month t.day * 86400 +
    (t.hour : Int) * 3600 + (t.minute : Int) * 60 + (t.second : Int) - t.offset

/-- Equality of the absolute instants two `GoTime` values denote; this is
the equality Go's `time.Time.Equal` decides. -/
def instEq (a b : GoTime) : Prop := toEpochSec a = toEpochSec b ∧ a.nsec = b.nsec

instance (a b : GoTime) : Decidable (instEq a b) := by
  unfold instEq
  infer_instance

/-- Week-day index of a `GoTime` (0 = Sunday); 1970-01-01 was a Thursday. -/
def weekdayIdx (t : GoTime) : Nat :=
  ((daysFromCivil t.year t.month t.day + 4) % 7).toNat

/-- Go's three-letter day names in `Weekday` order. -/
def shortDayNames : List String :=
  ["Sun", "Mon", "Tue", "Wed", "Thu", "Fri", "Sat"]

/-- Go's full day names in `Weekday` order. -/
def longDayNames : List String :=
  ["Sunday", "Monday", "Tuesday", "Wednesday", "Thursday", "Friday", "Saturday"]

/-- Go's three-letter month names, with their month numbers. -/
def monthNamesTbl : List (String × Nat) :=
  [("Jan", 1), ("Feb", 2), ("Mar", 3), ("Apr", 4), ("May", 5), ("Jun", 6),
   ("Jul", 7), ("Aug", 8), ("Sep", 9), ("Oct", 10), ("Nov", 11), ("Dec", 12)]

/-- Short day names paired with their `Weekday` numbers, for the parser. -/
def shortDayTbl : List (String × Nat) :=
  shortDayNames.enum.map fun p => (p.2, p.1)

/-- Full day names paired with their `Weekday` numbers, for the parser. -/
def longDayTbl : List (String × Nat) :=
  longDayNames.enum.map fun p => (p.2, p.1)

/-- Three-letter month name of month `m`. -/
def monthShortName (m : Nat) : String :=
  (monthNamesTbl.getD (m - 1) ("Jan", 1)).1

/-! ## Layout elements

Each constructor is one element of a Go reference layout.  `sec2`
additionally consumes an optional fractional second on the parse side,
because Go's `Parse` accepts a fractional second after the seconds element
of any layout, even when the layout does not show one. -/

inductive LayoutElem
  | lit (s : String)
  | day2
  | dayName3
  | dayNameFull
  | monthName3
  | year2
  | year4
  | month2
  | hour2
  | min2
  | sec2
  | fracNano
  | zoneAbbr
  | zoneNum
  | zoneISO
deriving DecidableEq, Repr

/-- Consume an optional fractional second (Go: a dot or comma followed by
one to nine digits); when absent, consume nothing and report `none`
nanoseconds changed (`Option.none` in the pair's first slot means the field
was not present). -/
def parseFracOpt (l : List Char) : Option (Option Nat × List Char) :=
  match l with
  | c :: rest =>
    if (c = '.' || c = ',') && (match rest with | d :: _ => isDigitChar d | [] => false) then
      let ds := rest.takeWhile isDigitChar
      if ds.length ≤ 9 then
        some (some (digitsValue ds * 10 ^ (9 - ds.length)), rest.drop ds.length)
      else
        none
    else
      some (none, c :: rest)
  | [] => some (none, [])

/-- Parse one layout element, threading the accumulated fields.  This is
the per-element core of the Go `time.Parse` loop, restricted to the
elements occurring in the seven layouts `parseRawTime` tries. -/
def elemParse : LayoutElem → GoTime → List Char → Option (GoTime × List Char)
  | .lit s, st, l => (stripPre s.toList l).map fun r => (st, r)
  | .day2, st, l => (getnum2 l).map fun p => ({ st with day := p.1 }, p.2)
  | .month2, st, l => (getnum2 l).map fun p => ({ st with month := p.1 }, p.2)
  | .year4, st, l => (getnum4 l).map fun p => ({ st with year := p.1 }, p.2)
  | .year2, st, l =>
    (getnum2 l).map fun p =>
      ({ st with year := if 69 ≤ p.1 then 1900 + p.1 else 2000 + p.1 }, p.2)
  | .hour2, st, l => (getnum2 l).map fun p => ({ st with hour := p.1 }, p.2)
  | .min2, st, l => (getnum2 l).map fun p => ({ st with minute := p.1 }, p.2)
  | .sec2, st, l =>
    (getnum2 l).bind fun p =>
      (parseFracOpt p.2).map fun q =>
        ({ st with second := p.1, nsec := q.1.getD st.nsec }, q.2)
  | .fracNano, st, l =>
    (parseFracOpt l).map fun q => ({ st with nsec := q.1.getD st.nsec }, q.2)
  | .dayName3, st, l => (tryNames shortDayTbl l).map fun p => (st, p.2)
  | .dayNameFull, st, l => (tryNames longDayTbl l).map fun p => (st, p.2)
  | .monthName3, st, l => (tryNames monthNamesTbl l).map fun p => ({ st with month := p.1 }, p.2)
  | .zoneAbbr, st, l =>
    let run := l.takeWhile isUpperChar
    if 2 ≤ run.length ∧ run.length ≤ 4 then
      some ({ st with offset := 0, zoneName := ⟨run⟩ }, l.drop run.length)
    else
      none
  | .zoneNum, st, l =>
    match l with
    | '+' :: r =>
      (getnum4 r).map fun p =>
        ({ st with offset := ((p.1 / 100 : Nat) : Int) * 3600 + ((p.1 % 100 : Nat) : Int) * 60,
                   zoneName := "" }, p.2)
    | '-' :: r =>
      (getnum4 r).map fun p =>
        ({ st with offset := -(((p.1 / 100 : Nat) : Int) * 3600 + ((p.1 % 100 : Nat) : Int) * 60),
                   zoneName := "" }, p.2)
    | _ => none
  | .zoneISO, st, l =>
    match l with
    | 'Z' :: r => some ({ st with offset := 0, zoneName := "UTC" }, r)
    | '+' :: r =>
      (getnum2 r).bind fun p =>
        match p.2 with
        | ':' :: r2 =>
          (getnum2 r2).map fun q =>
            ({ st with offset := (p.1 : Int) * 3600 + (q.1 : Int) * 60, zoneName := "" }, q.2)
        | _ => none
    | '-' :: r =>
      (getnum2 r).bind fun p =>
        match p.2 with
        | ':' :: r2 =>
          (getnum2 r2).map fun q =>
            ({ st with offset := -((p.1 : Int) * 3600 + (q.1 : Int) * 60), zoneName := "" }, q.2)
        | _ => none
    | _ => none

/-- Run a whole layout over the input; as in Go, any text left over after
the last element is an error. -/
def parseElems : List LayoutElem → GoTime → List Char → Option GoTime
  | [], st, [] => some st
  | [], _, _ :: _ => none
  | e :: es, st, l =>
    match elemParse e st l with
    | some (st2, r) => parseElems es st2 r
    | none => none

/-- Range validation performed by Go's `Parse` after the element loop. -/
def validateTime (st : GoTime) : Option GoTime :=
  if 1 ≤ st.month ∧ st.month ≤ 12 ∧ 1 ≤ st.day ∧ st.day ≤ daysInMonth st.year st.month ∧
      st.hour < 24 ∧ st.minute < 60 ∧ st.second < 60 ∧ st.nsec < 1000000000 then
    some st
  else
    none

/-- Model of Go `time.Parse` for one layout: run the elements from the
zero value, then validate ranges. -/
def goTimeParse (layout : List LayoutElem) (l : List Char) : Option GoTime :=
  (parseElems layout {} l).bind validateTime

/-! ## The seven layouts of `parseRawTime`

Element-by-element translations of the Go constants `time.RFC822`,
`time.RFC822Z`, `time.RFC850`, `time.RFC1123`, `time.RFC1123Z`,
`time.RFC3339` and `time.RFC3339Nano`. -/

/-- Layout `02 Jan 06 15:04 MST`. -/
def layoutRFC822 : List LayoutElem :=
  [.day2, .lit (" "), .monthName3, .lit (" "), .year2, .lit (" "),
   .hour2, .lit (":"), .min2, .lit (" "), .zoneAbbr]

/-- Layout `02 Jan 06 15:04 -0700`. -/
def layoutRFC822Z : List LayoutElem :=
  [.day2, .lit (" "), .monthName3, .lit (" "), .year2, .lit (" "),
   .hour2, .lit (":"), .min2, .lit (" "), .zoneNum]

/-- Layout `Monday, 02-Jan-06 15:04:05 MST`. -/
def layoutRFC850 : List LayoutElem :=
  [.dayNameFull, .lit (", "), .day2, .lit ("-"), .monthName3, .lit ("-"), .year2,
   .lit (" "), .hour2, .lit (":"), .min2, .lit (":"), .sec2, .lit (" "), .zoneAbbr]

/-- Layout `Mon, 02 Jan 2006 15:04:05 MST`. -/
def layoutRFC1123 : List LayoutElem :=
  [.dayName3, .lit (", "), .day2, .lit (" "), .monthName3, .lit (" "), .year4,
   .lit (" "), .hour2, .lit (":"), .min2, .lit (":"), .sec2, .lit (" "), .zoneAbbr]

/-- Layout `Mon, 02 Jan 2006 15:04:05 -0700`. -/
def layoutRFC1123Z : List LayoutElem :=
  [.dayName3, .lit (", "), .day2, .lit (" "), .monthName3, .lit (" "), .year4,
   .lit (" "), .hour2, .lit (":"), .min2, .lit (":"), .sec2, .lit (" "), .zoneNum]

/-- Layout `2006-01-02T15:04:05Z07:00`. -/
def layoutRFC3339 : List LayoutElem :=
  [.year4, .lit ("-"), .month2, .lit ("-"), .day2, .lit ("T"),
   .hour2, .lit (":"), .min2, .lit (":"), .sec2, .zoneISO]

/-- Layout `2006-01-02T15:04:05.999999999Z07:00`; the explicit fractional
element formats the nanoseconds and, on the parse side, is subsumed by the
optional fraction `sec2` already accepts. -/
def layoutRFC3339Nano : List LayoutElem :=
  [.year4, .lit ("-"), .month2, .lit ("-"), .day2, .lit ("T"),
   .hour2, .lit (":"), .min2, .lit (":"), .sec2, .fracNano, .zoneISO]

/-- The layout list of `parseRawTime`, in the order the Go source tries
them (`configuration.go`, lines 518-526). -/
def rawTimeLayouts : List (List LayoutElem) :=
  [layoutRFC822, layoutRFC822Z, layoutRFC850, layoutRFC1123, layoutRFC1123Z,
   layoutRFC3339, layoutRFC3339Nano]

/-- First-success iteration over the layout list, as the Go `for` loop in
`parseRawTime`. -/
def firstParse : List (List LayoutElem) → List Char → Option GoTime
  | [], _ => none
  | L :: Ls, l =>
    match goTimeParse L l with
    | some t => some t
    | none => firstParse Ls l

/-- Prefix of the error message `parseRawTime` builds when no layout
matches (the Go source formats the offending string into the message). -/
def timeErrPre : String := "Cannot get a valid time from \""

/-- Suffix of the `parseRawTime` error message. -/
def timeErrPost : String := "\"; maybe add this layout?"

/-- Error message carrying the unparseable input string. -/
def timeErrMsg (s : String) : String := timeErrPre ++ s ++ timeErrPost

/-- Shallow embedding of `parseRawTime` (`configuration.go`, lines
517-539): try every layout in order, return the first successful parse,
otherwise fail with an error carrying the original string.  The Lean
function is total, mirroring the fact that the Go function returns an
error value and never panics. -/
def parseRawTime (s : String) : Except String GoTime :=
  match firstParse rawTimeLayouts s.toList with
  | some t => .ok t
  | none => .error (timeErrMsg s)

/-! ## Go `time.Format` for the seven layouts -/

/-- Nanosecond fraction as Go formats `.999999999`: empty when zero,
otherwise a dot followed by the nine digits with trailing zeros removed. -/
def fracChars (nsec : Nat) : List Char :=
  if nsec = 0 then []
  else
    let ds := [digitChar (nsec / 100000000 % 10), digitChar (nsec / 10000000 % 10),
               digitChar (nsec / 1000000 % 10), digitChar (nsec / 100000 % 10),
               digitChar (nsec / 10000 % 10), digitChar (nsec / 1000 % 10),
               digitChar (nsec / 100 % 10), digitChar (nsec / 10 % 10),
               digitChar (nsec % 10)]
    '.' :: (ds.reverse.dropWhile (fun c => c = '0')).reverse

/-- Signed four-digit zone offset, as Go formats `-0700`. -/
def zoneNumChars (offset : Int) : List Char :=
  let sign := if offset < 0 then '-' else '+'
  let a := offset.natAbs / 60
  sign :: (format2 (a / 60) ++ format2 (a % 60))

/-- ISO zone, as Go formats `Z07:00`: `Z` for offset zero, otherwise a
signed `hh:mm`. -/
def zoneISOChars (offset : Int) : List Char :=
  if offset = 0 then ['Z']
  else
    let sign := if offset < 0 then '-' else '+'
    let a := offset.natAbs / 60
    sign :: (format2 (a / 60) ++ [':'] ++ format2 (a % 60))

/-- Format one layout element of a `GoTime`, as Go's `Format` does. -/
def formatElem (t : GoTime) : LayoutElem → List Char
  | .lit s => s.toList
  | .day2 => format2 t.day
  | .dayName3 => (shortDayNames.getD (weekdayIdx t) ("Sun")).toList
  | .dayNameFull => (longDayNames.getD (weekdayIdx t) ("Sunday")).toList
  | .monthName3 => (monthShortName t.month).toList
  | .year2 => format2 (t.year % 100)
  | .year4 => format4 t.year
  | .month2 => format2 t.month
  | .hour2 => format2 t.hour
  | .min2 => format2 t.minute
  | .sec2 => format2 t.second
  | .fracNano => fracChars t.nsec
  | .zoneAbbr => t.zoneName.toList
  | .zoneNum => zoneNumChars t.offset
  | .zoneISO => zoneISOChars t.offset

/-- Model of Go `time.Format` under a layout. -/
def goFormat (layout : List LayoutElem) (t : GoTime) : List Char :=
  (layout.map (formatElem t)).flatten

example : parseRawTime ("02 Jan 06 15:04 UTC") =
    .ok { year := 2006, month := 1, day := 2, hour := 15, minute := 4,
          offset := 0, zoneName := "UTC" } := by rfl

example : parseRawTime ("Mon, 02 Jan 2006 15:04:05 MST") =
    .ok { year := 2006, month := 1, day := 2, hour := 15, minute := 4, second := 5,
          offset := 0, zoneName := "MST" } := by rfl

example : parseRawTime ("2006-01-02T15:04:05Z") =
    .ok { year := 2006, month := 1, day := 2, hour := 15, minute := 4, second := 5,
          offset := 0, zoneName := "UTC" } := by rfl

example : parseRawTime ("2006-01-02T15:04:05.25Z") =
    .ok { year := 2006, month := 1, day := 2, hour := 15, minute := 4, second := 5,
          nsec := 250000000, offset := 0, zoneName := "UTC" } := by rfl

example : parseRawTime ("not a date") = .error (timeErrMsg ("not a date")) := by rfl

example :
    goFormat layoutRFC1123
      { year := 2006, month := 1, day := 2, hour := 15,
        minute := 4, second := 5, offset := 0, zoneName := "UTC" } =
    ("Mon, 02 Jan 2006 15:04:05 UTC").toList := by rfl

example :
    goFormat layoutRFC822
      { year := 2006, month := 1, day := 2, hour := 15,
        minute := 4, second := 5, offset := 0, zoneName := "UTC" } =
    ("02 Jan 06 15:04 UTC").toList := by rfl

/-! ## The RSS document model and the fetcher's decoding step

Shallow embedding of `internal/rss/rss.go`.  The HTTP request and
`xml.Unmarshal` are external collaborators; their combined outcome is a
parameter of `FetchFeed`. -/

structure RSSItem where
  title : String
  link : String
  description : String
  pubDate : String
deriving DecidableEq, Repr

structure RSSChannel where
  title : String
  link : String
  description : String
  item : List RSSItem
deriving DecidableEq, Repr

structure RSSFeed where
  channel : RSSChannel
deriving DecidableEq, Repr

/-- Model of Go's `html.UnescapeString` restricted to the five predefined
entities (`&amp;` `&lt;` `&gt;` `&quot;` `&#39;`), which is the behavior the
claims exercise; text without an ampersand is returned unchanged, exactly
as the full function does. -/
def unescapeChars : List Char → List Char
  | [] => []
  | '&' :: 'a' :: 'm' :: 'p' :: ';' :: rest => '&' :: unescapeChars rest
  | '&' :: 'l' :: 't' :: ';' :: rest => '<' :: unescapeChars rest
  | '&' :: 'g' :: 't' :: ';' :: rest => '>' :: unescapeChars rest
  | '&' :: 'q' :: 'u' :: 'o' :: 't' :: ';' :: rest => '"' :: unescapeChars rest
  | '&' :: '#' :: '3' :: '9' :: ';' :: rest => '\'' :: unescapeChars rest
  | c :: rest => c :: unescapeChars rest

/-- String-level wrapper of `unescapeChars`. -/
def unescapeString (s : String) : String := ⟨unescapeChars s.toList⟩

/-- Shallow embedding of `rss.FetchFeed`'s post-unmarshal decoding step
(`internal/rss/rss.go`, lines 63-72), applied to the outcome of the HTTP
GET plus `xml.Unmarshal` (`fetched`).  Translated statement by statement:

* `rssFeed.Channel.Title = html.UnescapeString(rssFeed.Channel.Title)`;
* `rssFeed.Channel.Description = html.UnescapeString(rssFeed.Channel.Title)`
  — the source reads the channel **title** (already unescaped by the
  previous line) when assigning the description;
* the `for _, rssItem := range rssFeed.Channel.Item` loop binds each item
  by value, so its two assignments mutate loop-local copies and the slice
  in the feed is left unchanged. -/
def FetchFeed (fetched : Except String RSSFeed) : Except String RSSFeed :=
  match fetched with
  | .error e => .error e
  | .ok rssFeed =>
    let chTitle := unescapeString rssFeed.channel.title
    let chDescription := unescapeString chTitle
    .ok { channel := { rssFeed.channel with
                        title := chTitle,
                        description := chDescription,
                        item := rssFeed.channel.item } }

/-- Modelled from the spec: the decoding step as specified — "HTML-escaped
entities in the channel title, channel description, and each entry's
title/description are decoded to their literal characters — this must be
applied to every entry, not only the first".  (The repository's earlier
revision of `FetchFeed`, `src/unnamed/part_004` lines 91-100, implements
exactly this.) -/
def fetchFeedDecodedSpec (f : RSSFeed) : RSSFeed :=
  { channel := { f.channel with
                  title := unescapeString f.channel.title,
                  description := unescapeString f.channel.description,
                  item := f.channel.item.map fun it =>
                    { it with title := unescapeString it.title,
                              description := unescapeString it.description } } }

example : unescapeString ("A &amp; B") = "A & B" := by rfl

/-! ## Configuration state, `SetUser` and `Read`

Shallow embedding of the `Config` struct and the `SetUser` / `Read`
functions of `internal/configuration/configuration.go`.  The JSON wire
format is modelled as a value tree (`Json`), the file system as an
association list from paths to stored documents; `os.WriteFile` is assumed
to succeed, and `encoding/json` field selection is modelled by key lookup
with unknown keys ignored and absent keys leaving the previous struct
field, as `json.Decoder.Decode` into an existing struct behaves. -/

structure Config where
  dbURL : String
  currentUserName : String
deriving DecidableEq, Repr

inductive Json
  | str (s : String)
  | obj (fields : List (String × Json))
deriving Repr

/-- JSON encoding of `Config`, following its two `json` field tags. -/
def encodeConfig (c : Config) : Json :=
  .obj [("db_url", .str c.dbURL), ("current_user_name", .str c.currentUserName)]

/-- First binding of a key in a JSON object's field list. -/
def jsonLookup : List (String × Json) → String → Option Json
  | [], _ => none
  | (k, v) :: rest, key => if k = key then some v else jsonLookup rest key

/-- JSON decoding of `Config` into an existing value `base`: a present
string field overwrites, an absent field keeps the base value, a field of
the wrong shape is a decode error, a non-object document is a decode
error. -/
def decodeConfig (base : Config) : Json → Option Config
  | .obj fields =>
    (match jsonLookup fields ("db_url") with
     | none => some base
     | some (.str s) => some { base with dbURL := s }
     | some _ => none).bind fun c1 =>
      match jsonLookup fields ("current_user_name") with
      | none => some c1
      | some (.str s) => some { c1 with currentUserName := s }
      | some _ => none
  | _ => none

/-- The file system as path-to-document bindings; the most recent write of
a path shadows older ones. -/
def FileSys : Type := List (String × Json)

/-- Write (or overwrite) a path. -/
def fsWrite (fs : FileSys) (path : String) (doc : Json) : FileSys :=
  (path, doc) :: fs

/-- Read a path. -/
def fsRead (fs : FileSys) (path : String) : Option Json :=
  jsonLookup fs path

/-- The global-state struct `state` of `configuration.go` (its exported
alias is `StateType`); the database handle is not used by `SetUser` or
`Read` and is omitted. -/
structure StateType where
  config : Config
  configFile : String
deriving DecidableEq, Repr

/-- Shallow embedding of `SetUser` (`configuration.go`, lines 103-122):
refuse an unconfigured path, set the user name in the shared `Config`
(reached through a pointer in Go, hence also visible in the returned
state), encode it and write the config file. -/
def SetUser (fs : FileSys) (st : StateType) (username : String) :
    FileSys × StateType × Except String Unit :=
  if st.configFile = "" then
    (fs, st, .error ("Unconfigured file path to JSON data"))
  else
    let cfg := { st.config with currentUserName := username }
    (fsWrite fs st.configFile (encodeConfig cfg), { st with config := cfg }, .ok ())

/-- Shallow embedding of `Read` (`configuration.go`, lines 80-100): refuse
an unconfigured path, open the config file, decode its JSON into the
shared `Config`. -/
def Read (fs : FileSys) (st : StateType) : StateType × Except String Unit :=
  if st.configFile = "" then
    (st, .error ("Unconfigured file path to JSON data"))
  else
    match fsRead fs st.configFile with
    | none => (st, .error ("open failed"))
    | some doc =>
      match decodeConfig st.config doc with
      | none => (st, .error ("decode failed"))
      | some c => ({ st with config := c }, .ok ())

/-! ## The relational store

Rows and the world state, following the schema (`sql/schema`) and the
queries the ingestion cycle consumes.  UUIDs are abstracted to naturals. -/

structure FeedRow where
  id : Nat
  url : String
  lastFetchedAt : Option Int
deriving DecidableEq, Repr

structure FollowRow where
  id : Nat
  userId : Nat
  feedId : Nat
deriving DecidableEq, Repr

structure PostRow where
  id : Nat
  title : String
  url : String
  description : String
  publishedAt : GoTime
  feedId : Nat
deriving DecidableEq, Repr

structure World where
  feeds : List FeedRow
  follows : List FollowRow
  posts : List PostRow
deriving DecidableEq, Repr

/-- Ascending comparison on `last_fetched_at` with SQL `NULLS FIRST`. -/
def nullsFirstLe (a b : Option Int) : Bool :=
  match a, b with
  | none, _ => true
  | some _, none => false
  | some x, some y => x ≤ y

/-- Row produced by the `GetNextFeedToFetch` join: a `feed_follows` row
paired with its matching `feeds` row. -/
def nextFeedRel (a b : FollowRow × FeedRow) : Prop :=
  nullsFirstLe a.2.lastFetchedAt b.2.lastFetchedAt = true

instance : DecidableRel nextFeedRel := by
  intro a b
  unfold nextFeedRel
  infer_instance

instance : IsTotal (FollowRow × FeedRow) nextFeedRel := by
  constructor
  intro a b
  unfold nextFeedRel nullsFirstLe
  rcases a.2.lastFetchedAt with _ | x <;> rcases b.2.lastFetchedAt with _ | y <;>
    simp <;> omega

instance : IsTrans (FollowRow × FeedRow) nextFeedRel := by
  constructor
  intro a b c
  unfold nextFeedRel nullsFirstLe
  rcases a.2.lastFetchedAt with _ | x <;> rcases b.2.lastFetchedAt with _ | y <;>
    rcases c.2.lastFetchedAt with _ | z <;> simp <;> omega

/-- The `FROM feed_follows INNER JOIN feeds ON feeds.id = feed_follows.feed_id`
row set of `GetNextFeedToFetch` (`src/unnamed/part_003`, lines 34-38). -/
def joinRows (w : World) : List (FollowRow × FeedRow) :=
  w.follows.flatMap fun fl =>
    (w.feeds.filter fun fd => fd.id = fl.feedId).map fun fd => (fl, fd)

/-- Shallow embedding of `GetNextFeedToFetch` as the ingestion cycle
consumes it: the join ordered by `feeds.last_fetched_at NULLS FIRST`, of
which the caller receives the first row (`QueryRow` semantics — an empty
result set is `sql.ErrNoRows`, modelled as `none`). -/
def getNextFeedToFetch (w : World) : Option (FollowRow × FeedRow) :=
  (List.insertionSort nextFeedRel (joinRows w)).head?

/-- Modelled from the spec: the `MarkFeedFetched` query is not under
`src/`; per the spec's storage contract `markFeedFetched(feedID,
timestamp)` it stamps the feed's `last_fetched_at` watermark. -/
def markFeedFetched (w : World) (feedId : Nat) (now : Int) : World :=
  { w with feeds := w.feeds.map fun f =>
      if f.id = feedId then { f with lastFetchedAt := some now } else f }

/-! ## The ingestion cycle -/

/-- PostgreSQL error code for a unique-constraint violation
(`pqerror.UniqueViolation`). -/
def uniqueViolationCode : String := "23505"

/-- Outcomes of a storage call, as the Go code discriminates them:
`sql.ErrNoRows`, a server-reported `*pq.Error` (code and constraint), or
any other error value (one for which `errors.As(err, &pqErr)` fails, e.g.
a connectivity failure). -/
inductive DbErr
  | noRows
  | pqError (code : String) (constraint : String)
  | otherError (msg : String)
deriving DecidableEq, Repr

/-- Environment of one ingestion cycle: the clock, the network/unmarshal
outcome per URL, and injected storage faults (the store is an external
service that may fail on any call). -/
structure Env where
  now : Int
  selFault : Option String := none
  markFault : Bool := false
  fetchResult : String → Except String RSSFeed
  insertFault : Nat → Option DbErr := fun _ => none

/-- Observable steps of a cycle, used to state ordering properties. -/
inductive Effect
  | selectNext
  | reportNoFeeds
  | markFetched (feedId : Nat) (t : Int)
  | fetchFeed (url : String)
  | insertAttempt (link : String)
deriving DecidableEq, Repr

/-- Errors a cycle can surface to its caller (`handlerAgg`). -/
inductive CycleError
  | selFailed (msg : String)
  | markFailed (feedId : Nat)
  | fetchFailed (msg : String)
  | badTimestamp (msg : String)
  | insertFailed (e : DbErr)
deriving DecidableEq, Repr

/-- Modelled from the spec: the `CreatePost` query is not under `src/`;
per the spec's storage contract `insertPost(...) -> Post |
UniqueViolation(onLink) | OtherError`, with the posts table's unique
constraint `posts_url_key` on the link.  `Env.insertFault` injects the
contract's `OtherError` outcomes (and any other failure, e.g. a
connectivity error); absent a fault, inserting an already-present link is
refused by the server with a unique violation on `posts_url_key`. -/
def createPost (env : Env) (callIdx : Nat) (w : World) (p : PostRow) :
    World × Except DbErr PostRow :=
  match env.insertFault callIdx with
  | some e => (w, .error e)
  | none =>
    if w.posts.any fun q => q.url = p.url then
      (w, .error (.pqError uniqueViolationCode ("posts_url_key")))
    else
      ({ w with posts := w.posts ++ [p] }, .ok p)

/-- Result of the per-entry loop. -/
structure IngestOut where
  world : World
  trace : List Effect
  err : Option CycleError
deriving Repr

/-- Shallow embedding of the per-entry loop of `scrapeFeeds`
(`configuration.go`, lines 472-508), in document order: normalize the
publication date (a failure aborts the loop with that error), attempt the
insert, and dispatch on the insert's outcome exactly as the source does —
`sql.ErrNoRows` continues; a `*pq.Error` aborts unless it is the unique
violation on `posts_url_key`; any error that is not a `*pq.Error` falls
through the `errors.As` test and the loop continues.  The running index
stands in for `uuid.New()` as the generated post identity and numbers the
storage calls. -/
def ingestItems (env : Env) (feedId : Nat) :
    List RSSItem → World → Nat → IngestOut
  | [], w, _ => ⟨w, [], none⟩
  | item :: rest, w, idx =>
    match parseRawTime item.pubDate with
    | .error e => ⟨w, [], some (.badTimestamp e)⟩
    | .ok pubDate =>
      let step := createPost env idx w
        { id := idx, title := item.title, url := item.link,
          description := item.description, publishedAt := pubDate, feedId := feedId }
      let eff := Effect.insertAttempt item.link
      match step.2 with
      | .ok _ =>
        let out := ingestItems env feedId rest step.1 (idx + 1)
        ⟨out.world, eff :: out.trace, out.err⟩
      | .error e =>
        if e = .noRows then
          let out := ingestItems env feedId rest step.1 (idx + 1)
          ⟨out.world, eff :: out.trace, out.err⟩
        else
          match e with
          | .pqError code constraint =>
            if ¬(code = uniqueViolationCode ∧ constraint = "posts_url_key") then
              ⟨step.1, [eff], some (.insertFailed (.pqError code constraint))⟩
            else
              let out := ingestItems env feedId rest step.1 (idx + 1)
              ⟨out.world, eff :: out.trace, out.err⟩
          | _ =>
            let out := ingestItems env feedId rest step.1 (idx + 1)
            ⟨out.world, eff :: out.trace, out.err⟩

/-- Result of one whole cycle. -/
structure CycleOut where
  world : World
  trace : List Effect
  result : Except CycleError Unit
deriving Repr

/-- Shallow embedding of `scrapeFeeds` (`configuration.go`, lines
449-511): select the most stale followed feed (`sql.ErrNoRows` — no feed —
prints a notice and returns `nil`; any other query failure is returned as
an error), mark it fetched **before** fetching, fetch and decode the
document, then run the per-entry loop. -/
def scrapeFeeds (env : Env) (w : World) : CycleOut :=
  match env.selFault with
  | some msg => ⟨w, [.selectNext], .error (.selFailed msg)⟩
  | none =>
    match getNextFeedToFetch w with
    | none => ⟨w, [.selectNext, .reportNoFeeds], .ok ()⟩
    | some row =>
      let feed := row.2
      if env.markFault then ⟨w, [.selectNext], .error (.markFailed feed.id)⟩
      else
        let w1 := markFeedFetched w feed.id env.now
        match FetchFeed (env.fetchResult feed.url) with
        | .error e =>
          ⟨w1, [.selectNext, .markFetched feed.id env.now, .fetchFeed feed.url],
           .error (.fetchFailed e)⟩
        | .ok rssFeed =>
          let out := ingestItems env feed.id rssFeed.channel.item w1 0
          ⟨out.world,
           [.selectNext, .markFetched feed.id env.now, .fetchFeed feed.url] ++ out.trace,
           match out.err with
           | some e => .error e
           | none => .ok ()⟩

/-! ## Concrete instances used by witnesses and counterexamples -/

/-- Feed A of the spec's selection example: never fetched. -/
def exFeedA : FeedRow := ⟨1, "http://a", none⟩

/-- Feed B of the spec's selection example: fetched 2020-01-01. -/
def exFeedB : FeedRow := ⟨2, "http://b", some 1577836800⟩

/-- Feed C of the spec's selection example: fetched 2023-01-01. -/
def exFeedC : FeedRow := ⟨3, "http://c", some 1672531200⟩

/-- Follow rows making all three example feeds followed. -/
def exFollows : List FollowRow := [⟨10, 100, 1⟩, ⟨11, 100, 2⟩, ⟨12, 100, 3⟩]

/-- The selection example world `{A: null, B: 2020-01-01, C: 2023-01-01}`. -/
def exWorld : World := ⟨[exFeedA, exFeedB, exFeedC], exFollows, []⟩

/-- A current-time stamp (2026-01-01) newer than every example watermark. -/
def exNow : Int := 1767225600

/-- An entry with an RFC1123 publication date. -/
def exItem1 : RSSItem := ⟨"T1", "/a", "D1", "Mon, 02 Jan 2006 15:04:05 MST"⟩

/-- An entry with an RFC3339 publication date. -/
def exItem2 : RSSItem := ⟨"T2", "/b", "D2", "2006-01-02T15:04:05Z"⟩

/-- An entry whose publication date no layout can parse. -/
def exItemBad : RSSItem := ⟨"TB", "/bad", "DB", "garbage"⟩

/-- A well-formed two-entry document. -/
def exDoc : RSSFeed := ⟨⟨"Ch", "L", "De", [exItem1, exItem2]⟩⟩

/-- A three-entry document whose second entry has an unparseable date. -/
def exDocBad : RSSFeed := ⟨⟨"Ch", "L", "De", [exItem1, exItemBad, exItem2]⟩⟩

/-- A fault-free environment that serves `exDoc` for every URL. -/
def exEnv : Env := { now := exNow, fetchResult := fun _ => .ok exDoc }

/-- Environment in which the first insert fails with an error that is not
a `*pq.Error` (a connectivity failure). -/
def exEnvConnFault : Env :=
  { now := exNow, fetchResult := fun _ => .ok exDoc,
    insertFault := fun n => if n = 0 then some (.otherError ("connection refused")) else none }

/-- Environment serving the document with the bad middle entry. -/
def exEnvBadDoc : Env := { now := exNow, fetchResult := fun _ => .ok exDocBad }

/-- A feed document carrying escaped HTML entities in the channel title,
the channel description, and an entry's title and description. -/
def exEscFeed : RSSFeed :=
  ⟨⟨"A &amp; B", "L", "C &lt; D", [⟨"X &amp; Y", "/x", "P &gt; Q", "d"⟩]⟩⟩

/-- The instant 2006-01-02 15:04:05 UTC, used by the round-trip claims. -/
def exTime : GoTime :=
  { year := 2006, month := 1, day := 2, hour := 15, minute := 4, second := 5,
    offset := 0, zoneName := "UTC" }

/-- An instant whose fields survive formatting under layout `L`: a UTC
instant at whole-second precision, with valid calendar fields, seconds
zero for the RFC-822 layouts (whose formats carry no seconds field), and a
year inside the range the layout's year field can reproduce (the 69-cutoff
window for two-digit years, four digits otherwise). -/
def representable (L : List LayoutElem) (T : GoTime) : Prop :=
  T.offset = 0 ∧ T.zoneName = "UTC" ∧ T.nsec = 0 ∧
  1 ≤ T.month ∧ T.month ≤ 12 ∧ 1 ≤ T.day ∧ T.day ≤ daysInMonth T.year T.month ∧
  T.hour < 24 ∧ T.minute < 60 ∧ T.second < 60 ∧
  ((L = layoutRFC822 ∨ L = layoutRFC822Z) → T.second = 0) ∧
  ((L = layoutRFC822 ∨ L = layoutRFC822Z ∨ L = layoutRFC850) →
    1969 ≤ T.year ∧ T.year ≤ 2068) ∧
  ((L = layoutRFC1123 ∨ L = layoutRFC1123Z ∨ L = layoutRFC3339 ∨
      L = layoutRFC3339Nano) →
    1 ≤ T.year ∧ T.year ≤ 9999)

/-- The post row the ingestion loop builds for an entry (`configuration.go`,
lines 483-492), with the running index standing in for `uuid.New()`. -/
def postOf (item : RSSItem) (idx fid : Nat) (t : GoTime) : PostRow :=
  { id := idx, title := item.title, url := item.link,
    description := item.description, publishedAt := t, feedId := fid }

/-- Prepend one effect to a loop result (used to phrase the step equations
of `ingestItems`). -/
def consOut (eff : Effect) (out : IngestOut) : IngestOut :=
  ⟨out.world, eff :: out.trace, out.err⟩

/-- World with one post row appended (the successful-insert outcome). -/
def withPost (w : World) (p : PostRow) : World :=
  { w with posts := w.posts ++ [p] }

/-! ## Helper lemmas about the store model -/

theorem nullsFirstLe_refl (a : Option Int) : nullsFirstLe a a = true := by
  cases a <;> simp [nullsFirstLe]

theorem mem_joinRows {w : World} {row : FollowRow × FeedRow} (h : row ∈ joinRows w) :
    row.1 ∈ w.follows ∧ row.2 ∈ w.feeds ∧ row.2.id = row.1.feedId := by
  unfold joinRows at h
  simp only [List.mem_flatMap, List.mem_map, List.mem_filter,
    decide_eq_true_eq] at h
  obtain ⟨fl, hfl, fd, ⟨hfd, hid⟩, hrow⟩ := h
  subst hrow
  exact ⟨hfl, hfd, hid⟩

theorem joinRows_mem {w : World} {fl : FollowRow} {fd : FeedRow}
    (hfl : fl ∈ w.follows) (hfd : fd ∈ w.feeds) (hid : fd.id = fl.feedId) :
    (fl, fd) ∈ joinRows w := by
  unfold joinRows
  simp only [List.mem_flatMap, List.mem_map, List.mem_filter, decide_eq_true_eq]
  exact ⟨fl, hfl, fd, ⟨hfd, hid⟩, rfl⟩

theorem getNext_mem_join {w : World} {row : FollowRow × FeedRow}
    (h : getNextFeedToFetch w = some row) : row ∈ joinRows w := by
  unfold getNextFeedToFetch at h
  have hmem : row ∈ List.insertionSort nextFeedRel (joinRows w) := by
    cases hs : List.insertionSort nextFeedRel (joinRows w) with
    | nil => rw [hs] at h; simp at h
    | cons a l =>
      rw [hs] at h
      simp only [List.head?_cons, Option.some.injEq] at h
      rw [← h]
      exact List.mem_cons_self a l
  exact ((List.perm_insertionSort nextFeedRel (joinRows w)).mem_iff).mp hmem

theorem getNext_minimal {w : World} {row : FollowRow × FeedRow}
    (h : getNextFeedToFetch w = some row) :
    ∀ x ∈ joinRows w, nextFeedRel row x := by
  intro x hx
  unfold getNextFeedToFetch at h
  have hsorted := List.sorted_insertionSort nextFeedRel (joinRows w)
  have hperm := List.perm_insertionSort nextFeedRel (joinRows w)
  cases hs : List.insertionSort nextFeedRel (joinRows w) with
  | nil => rw [hs] at h; simp at h
  | cons a l =>
    rw [hs] at h
    simp only [List.head?_cons, Option.some.injEq] at h
    have hx' : x ∈ a :: l := by
      rw [← hs]
      exact hperm.mem_iff.mpr hx
    rw [hs] at hsorted
    rcases List.mem_cons.mp hx' with hxa | hmem
    · rw [← h, hxa]
      exact nullsFirstLe_refl _
    · rw [← h]
      exact List.rel_of_sorted_cons hsorted x hmem

theorem markFeedFetched_mem {w : World} {feedId : Nat} {now : Int} :
    ∀ f ∈ (markFeedFetched w feedId now).feeds, f.id = feedId →
      f.lastFetchedAt = some now := by
  intro f hf hid
  unfold markFeedFetched at hf
  simp only [List.mem_map] at hf
  obtain ⟨g, _, hfg⟩ := hf
  by_cases h : g.id = feedId
  · rw [← hfg]
    simp [h]
  · rw [← hfg] at hid
    simp [h] at hid

theorem markFeedFetched_exists {w : World} {feedId : Nat} {now : Int}
    (h : ∃ f ∈ w.feeds, f.id = feedId) :
    ∃ f ∈ (markFeedFetched w feedId now).feeds, f.id = feedId ∧
      f.lastFetchedAt = some now := by
  obtain ⟨f, hf, hid⟩ := h
  refine ⟨{ f with lastFetchedAt := some now }, ?_, hid, rfl⟩
  unfold markFeedFetched
  simp only [List.mem_map]
  exact ⟨f, hf, by simp [hid]⟩

/-! ## Helper lemmas about the ingestion loop -/

theorem createPost_feeds (env : Env) (i : Nat) (w : World) (p : PostRow) :
    (createPost env i w p).1.feeds = w.feeds := by
  unfold createPost
  cases env.insertFault i <;> simp
  split <;> rfl

theorem createPost_follows (env : Env) (i : Nat) (w : World) (p : PostRow) :
    (createPost env i w p).1.follows = w.follows := by
  unfold createPost
  cases env.insertFault i <;> simp
  split <;> rfl

theorem ingestItems_feeds (env : Env) (fid : Nat) :
    ∀ (items : List RSSItem) (w : World) (idx : Nat),
      (ingestItems env fid items w idx).world.feeds = w.feeds := by
  intro items
  induction items with
  | nil => intro w idx; rfl
  | cons item rest ih =>
    intro w idx
    unfold ingestItems
    cases hp : parseRawTime item.pubDate with
    | error e => rfl
    | ok t =>
      simp only []
      split
      · rw [ih, createPost_feeds]
      · split
        · rw [ih, createPost_feeds]
        · split
          · split
            · simp [createPost_feeds]
            · rw [ih, createPost_feeds]
          · rw [ih, createPost_feeds]

/-! ## Step equations of the ingestion loop -/

theorem ingestItems_nil (env : Env) (fid : Nat) (w : World) (idx : Nat) :
    ingestItems env fid [] w idx = ⟨w, [], none⟩ := rfl

theorem ingestItems_cons_badTime (env : Env) (fid : Nat) (item : RSSItem)
    (rest : List RSSItem) (w : World) (idx : Nat) (e : String)
    (hp : parseRawTime item.pubDate = .error e) :
    ingestItems env fid (item :: rest) w idx = ⟨w, [], some (.badTimestamp e)⟩ := by
  simp only [ingestItems, hp]

theorem ingestItems_cons_insert (env : Env) (fid : Nat) (item : RSSItem)
    (rest : List RSSItem) (w : World) (idx : Nat) (t : GoTime)
    (hp : parseRawTime item.pubDate = .ok t)
    (hf : env.insertFault idx = none)
    (hdup : (w.posts.any fun q => q.url = item.link) = false) :
    ingestItems env fid (item :: rest) w idx =
      consOut (.insertAttempt item.link)
        (ingestItems env fid rest (withPost w (postOf item idx fid t)) (idx + 1)) := by
  simp only [ingestItems, hp, createPost, hf, postOf]
  simp only [hdup, Bool.false_eq_true, if_false, consOut, withPost]

theorem ingestItems_cons_dup (env : Env) (fid : Nat) (item : RSSItem)
    (rest : List RSSItem) (w : World) (idx : Nat) (t : GoTime)
    (hp : parseRawTime item.pubDate = .ok t)
    (hf : env.insertFault idx = none)
    (hdup : (w.posts.any fun q => q.url = item.link) = true) :
    ingestItems env fid (item :: rest) w idx =
      consOut (.insertAttempt item.link) (ingestItems env fid rest w (idx + 1)) := by
  simp only [ingestItems, hp, createPost, hf, postOf]
  simp only [hdup, if_true, consOut]
  simp [uniqueViolationCode]

theorem ingestItems_cons_pqAbort (env : Env) (fid : Nat) (item : RSSItem)
    (rest : List RSSItem) (w : World) (idx : Nat) (t : GoTime)
    (code constraint : String)
    (hp : parseRawTime item.pubDate = .ok t)
    (hf : env.insertFault idx = some (.pqError code constraint))
    (hnk : ¬(code = uniqueViolationCode ∧ constraint = "posts_url_key")) :
    ingestItems env fid (item :: rest) w idx =
      ⟨w, [.insertAttempt item.link],
       some (.insertFailed (.pqError code constraint))⟩ := by
  simp only [ingestItems, hp, createPost, hf]
  simp [hnk]

theorem ingestItems_cons_pqDupSkip (env : Env) (fid : Nat) (item : RSSItem)
    (rest : List RSSItem) (w : World) (idx : Nat) (t : GoTime)
    (hp : parseRawTime item.pubDate = .ok t)
    (hf : env.insertFault idx = some (.pqError uniqueViolationCode ("posts_url_key"))) :
    ingestItems env fid (item :: rest) w idx =
      consOut (.insertAttempt item.link) (ingestItems env fid rest w (idx + 1)) := by
  simp only [ingestItems, hp, createPost, hf]
  simp [consOut, uniqueViolationCode]

theorem ingestItems_cons_otherSkip (env : Env) (fid : Nat) (item : RSSItem)
    (rest : List RSSItem) (w : World) (idx : Nat) (t : GoTime) (msg : String)
    (hp : parseRawTime item.pubDate = .ok t)
    (hf : env.insertFault idx = some (.otherError msg)) :
    ingestItems env fid (item :: rest) w idx =
      consOut (.insertAttempt item.link) (ingestItems env fid rest w (idx + 1)) := by
  simp only [ingestItems, hp, createPost, hf]
  simp [consOut]

/-! ## Claim theorems -/

/-- C8: When no feed exists to poll, the ingestion cycle reports that
there is nothing to do and returns success rather than an error, and the
scheduler simply waits for the next tick; among selection outcomes, the
"no feed" condition (`sql.ErrNoRows`) is the only one that is not treated
as an error — any other selection failure is surfaced. -/
theorem scrapeFeeds_no_feed_not_error (env : Env) (w : World) :
    (env.selFault = none → getNextFeedToFetch w = none →
      scrapeFeeds env w = ⟨w, [.selectNext, .reportNoFeeds], .ok ()⟩) ∧
    (∀ msg, env.selFault = some msg →
      scrapeFeeds env w = ⟨w, [.selectNext], .error (.selFailed msg)⟩) := by
  constructor
  · intro h1 h2
    simp only [scrapeFeeds, h1, h2]
  · intro msg h
    simp only [scrapeFeeds, h]

/-- Witness for C8 at a concrete empty store and a concrete failing
selection. -/
theorem scrapeFeeds_no_feed_not_error_witness :
    scrapeFeeds exEnv ⟨[], [], []⟩ = ⟨⟨[], [], []⟩, [.selectNext, .reportNoFeeds], .ok ()⟩ ∧
    scrapeFeeds { exEnv with selFault := some ("boom") } exWorld =
      ⟨exWorld, [.selectNext], .error (.selFailed ("boom"))⟩ :=
  ⟨(scrapeFeeds_no_feed_not_error exEnv ⟨[], [], []⟩).1 rfl (by decide),
   (scrapeFeeds_no_feed_not_error { exEnv with selFault := some ("boom") } exWorld).2
     ("boom") rfl⟩

/-- C9: A feed that no user follows is never returned by the
next-feed-to-fetch selection (the query joins feeds with the feed-follows
table), regardless of its watermark: every selected row's feed is followed
by some user. -/
theorem getNextFeedToFetch_only_followed :
    ∀ (w : World) (row : FollowRow × FeedRow), getNextFeedToFetch w = some row →
      ∃ fl ∈ w.follows, fl.feedId = row.2.id := by
  intro w row h
  obtain ⟨h1, _, h3⟩ := mem_joinRows (getNext_mem_join h)
  exact ⟨row.1, h1, h3.symm⟩

/-- Witness for C9 at the concrete example world. -/
theorem getNextFeedToFetch_only_followed_witness :
    ∃ fl ∈ exWorld.follows, fl.feedId = exFeedA.id :=
  getNextFeedToFetch_only_followed exWorld (⟨10, 100, 1⟩, exFeedA) (by decide)

/-- C6: The selection returns a feed whose watermark is oldest (nulls
first) among the followed feeds, and on the spec's example
`{A: null, B: 2020-01-01, C: 2023-01-01}` it returns A, then — after A is
marked fetched at the current time — B. -/
theorem getNextFeedToFetch_oldest_first :
    (∀ (w : World) (row : FollowRow × FeedRow), getNextFeedToFetch w = some row →
      ∀ f ∈ w.feeds, (∃ fl ∈ w.follows, fl.feedId = f.id) →
        nullsFirstLe row.2.lastFetchedAt f.lastFetchedAt = true) ∧
    (getNextFeedToFetch exWorld = some (⟨10, 100, 1⟩, exFeedA) ∧
     getNextFeedToFetch (markFeedFetched exWorld exFeedA.id exNow) =
       some (⟨11, 100, 2⟩, exFeedB)) := by
  constructor
  · intro w row h f hf hfl
    obtain ⟨fl, hmem, hid⟩ := hfl
    exact getNext_minimal h (fl, f) (joinRows_mem hmem hf hid.symm)
  · exact ⟨by decide, by decide⟩

/-- Witness for C6's general part at the concrete example world. -/
theorem getNextFeedToFetch_oldest_first_witness :
    nullsFirstLe exFeedA.lastFetchedAt exFeedC.lastFetchedAt = true :=
  (getNextFeedToFetch_oldest_first).1 exWorld (⟨10, 100, 1⟩, exFeedA) (by decide)
    exFeedC (by decide) ⟨⟨12, 100, 3⟩, by decide, by decide⟩

/-- C10: For every state whose config-file path is configured, a
successful `SetUser` followed by a `Read` of the same state yields a
configuration whose user name is the one just set and whose database URL
is unchanged. -/
theorem SetUser_Read_roundtrip (fs : FileSys) (st : StateType) (u : String)
    (h : ¬st.configFile = "") :
    (SetUser fs st u).2.2 = .ok () ∧
    (Read (SetUser fs st u).1 (SetUser fs st u).2.1).2 = .ok () ∧
    (Read (SetUser fs st u).1 (SetUser fs st u).2.1).1.config.currentUserName = u ∧
    (Read (SetUser fs st u).1 (SetUser fs st u).2.1).1.config.dbURL = st.config.dbURL := by
  have hdec : ∀ base c : Config, decodeConfig base (encodeConfig c) = some c :=
    fun base c => rfl
  simp only [SetUser, Read, fsWrite, fsRead, jsonLookup, h, if_neg, if_false, if_true,
    if_pos, hdec]
  simp [h, hdec]

/-- Witness for C10 at a concrete configured state. -/
theorem SetUser_Read_roundtrip_witness :
    (SetUser [] ⟨⟨"postgres://db", "alice"⟩, "/home/u/.gatorconfig.json"⟩ ("bob")).2.2 =
        .ok () ∧
    (Read (SetUser [] ⟨⟨"postgres://db", "alice"⟩, "/home/u/.gatorconfig.json"⟩ ("bob")).1
        (SetUser [] ⟨⟨"postgres://db", "alice"⟩, "/home/u/.gatorconfig.json"⟩ ("bob")).2.1).2 =
        .ok () ∧
    (Read (SetUser [] ⟨⟨"postgres://db", "alice"⟩, "/home/u/.gatorconfig.json"⟩ ("bob")).1
        (SetUser [] ⟨⟨"postgres://db", "alice"⟩, "/home/u/.gatorconfig.json"⟩ ("bob")).2.1).1.config.currentUserName =
        "bob" ∧
    (Read (SetUser [] ⟨⟨"postgres://db", "alice"⟩, "/home/u/.gatorconfig.json"⟩ ("bob")).1
        (SetUser [] ⟨⟨"postgres://db", "alice"⟩, "/home/u/.gatorconfig.json"⟩ ("bob")).2.1).1.config.dbURL =
        "postgres://db" :=
  SetUser_Read_roundtrip [] ⟨⟨"postgres://db", "alice"⟩, "/home/u/.gatorconfig.json"⟩
    ("bob") (by decide)

/-- C3 (code bug): on a document carrying escaped entities, the decoding
step of `FetchFeed` leaves every entry's title and description escaped
(the range loop mutates copies) and overwrites the channel description
with the unescaped channel title, contradicting the specified decoding —
which the spec-modelled `fetchFeedDecodedSpec` (and the repository's other
revision of `FetchFeed`) performs. -/
theorem fetchFeed_decoding_dropped :
    FetchFeed (.ok exEscFeed) =
      .ok ⟨⟨"A & B", "L", "A & B", [⟨"X &amp; Y", "/x", "P &gt; Q", "d"⟩]⟩⟩ ∧
    fetchFeedDecodedSpec exEscFeed =
      ⟨⟨"A & B", "L", "C < D", [⟨"X & Y", "/x", "P > Q", "d"⟩]⟩⟩ ∧
    FetchFeed (.ok exEscFeed) ≠ .ok (fetchFeedDecodedSpec exEscFeed) := by
  refine ⟨rfl, rfl, fun hcontra => ?_⟩
  rw [show FetchFeed (.ok exEscFeed) =
      .ok (⟨⟨"A & B", "L", "A & B", [⟨"X &amp; Y", "/x", "P &gt; Q", "d"⟩]⟩⟩ : RSSFeed)
    from rfl] at hcontra
  injection hcontra with hfeed
  exact absurd hfeed (by decide)

/-- C2: In every cycle in which a feed is selected and the watermark
update succeeds, the feed's "last fetched at" watermark is set to the
current time before the remote document is fetched and before any entry
is parsed or stored (the mark effect is the second step of the trace,
ahead of every fetch and insert effect), and the watermark is advanced in
the final store state even when the fetch or the ingestion fails. -/
theorem scrapeFeeds_marks_before_fetch (env : Env) (w : World)
    (row : FollowRow × FeedRow)
    (hsel : env.selFault = none) (hrow : getNextFeedToFetch w = some row)
    (hmark : env.markFault = false) :
    (∃ rest, (scrapeFeeds env w).trace =
        .selectNext :: .markFetched row.2.id env.now :: rest) ∧
    (∀ f ∈ (scrapeFeeds env w).world.feeds, f.id = row.2.id →
        f.lastFetchedAt = some env.now) ∧
    (∃ f ∈ (scrapeFeeds env w).world.feeds, f.id = row.2.id ∧
        f.lastFetchedAt = some env.now) := by
  have hfeedmem : row.2 ∈ w.feeds := (mem_joinRows (getNext_mem_join hrow)).2.1
  have hex : ∃ f ∈ w.feeds, f.id = row.2.id := ⟨row.2, hfeedmem, rfl⟩
  simp only [scrapeFeeds, hsel, hrow, hmark, Bool.false_eq_true, if_false]
  cases hfetch : FetchFeed (env.fetchResult row.2.url) with
  | error e =>
    refine ⟨⟨[.fetchFeed row.2.url], rfl⟩, ?_, ?_⟩
    · exact markFeedFetched_mem
    · exact markFeedFetched_exists hex
  | ok feedDoc =>
    refine ⟨⟨.fetchFeed row.2.url ::
        (ingestItems env row.2.id feedDoc.channel.item
          (markFeedFetched w row.2.id env.now) 0).trace, by simp⟩, ?_, ?_⟩
    · intro f hf hid
      rw [ingestItems_feeds] at hf
      exact markFeedFetched_mem f hf hid
    · obtain ⟨f, hf, hid, hlast⟩ := @markFeedFetched_exists _ _ env.now hex
      refine ⟨f, ?_, hid, hlast⟩
      rw [ingestItems_feeds]
      exact hf

/-- Witness for C2 at the concrete example world and a failing fetch. -/
theorem scrapeFeeds_marks_before_fetch_witness :
    (∃ rest, (scrapeFeeds { exEnv with fetchResult := fun _ => .error ("timeout") }
        exWorld).trace = .selectNext :: .markFetched exFeedA.id exNow :: rest) ∧
    (∀ f ∈ (scrapeFeeds { exEnv with fetchResult := fun _ => .error ("timeout") }
        exWorld).world.feeds, f.id = exFeedA.id → f.lastFetchedAt = some exNow) ∧
    (∃ f ∈ (scrapeFeeds { exEnv with fetchResult := fun _ => .error ("timeout") }
        exWorld).world.feeds, f.id = exFeedA.id ∧ f.lastFetchedAt = some exNow) :=
  scrapeFeeds_marks_before_fetch { exEnv with fetchResult := fun _ => .error ("timeout") }
    exWorld (⟨10, 100, 1⟩, exFeedA) rfl (by decide) rfl

/-! ## First-success lemmas for the layout loop -/

theorem firstParse_eq_none (l : List Char) :
    ∀ (Ls : List (List LayoutElem)), (∀ L ∈ Ls, goTimeParse L l = none) →
      firstParse Ls l = none := by
  intro Ls
  induction Ls with
  | nil => intro _; rfl
  | cons L Ls ih =>
    intro h
    unfold firstParse
    rw [h L (List.mem_cons_self L Ls)]
    exact ih fun L' hL' => h L' (List.mem_cons_of_mem L hL')

theorem firstParse_first_success (l : List Char) :
    ∀ (Ls : List (List LayoutElem)) (i : Nat) (hi : i < Ls.length) (t : GoTime),
      goTimeParse (Ls.get ⟨i, hi⟩) l = some t →
      (∀ (j : Nat) (hj : j < i), goTimeParse (Ls.get ⟨j, Nat.lt_trans hj hi⟩) l = none) →
      firstParse Ls l = some t := by
  intro Ls
  induction Ls with
  | nil => intro i hi; exact absurd hi (Nat.not_lt_zero i)
  | cons L Ls ih =>
    intro i hi t hparse hprev
    cases i with
    | zero =>
      have hL : goTimeParse L l = some t := hparse
      unfold firstParse
      rw [hL]
    | succ n =>
      have h0 : goTimeParse L l = none := hprev 0 (Nat.succ_pos n)
      unfold firstParse
      rw [h0]
      exact ih n (Nat.lt_of_succ_lt_succ hi) t hparse fun j hj =>
        hprev (j + 1) (Nat.succ_lt_succ hj)

/-- C4: The normalizer tries the fixed ordered layout list (RFC-822,
RFC-822 numeric zone, RFC-850, RFC-1123, RFC-1123 numeric zone, RFC-3339,
RFC-3339 fractional) and returns the instant produced by the first layout
that parses the string; for every string no layout matches, it fails with
an error carrying the original string — the function is total, so it never
panics. -/
theorem parseRawTime_first_success (s : String) :
    (∀ (i : Nat) (hi : i < rawTimeLayouts.length) (t : GoTime),
      goTimeParse (rawTimeLayouts.get ⟨i, hi⟩) s.toList = some t →
      (∀ (j : Nat) (hj : j < i),
        goTimeParse (rawTimeLayouts.get ⟨j, Nat.lt_trans hj hi⟩) s.toList = none) →
      parseRawTime s = .ok t) ∧
    ((∀ L ∈ rawTimeLayouts, goTimeParse L s.toList = none) →
      parseRawTime s = .error (timeErrPre ++ s ++ timeErrPost)) := by
  constructor
  · intro i hi t hp hprev
    unfold parseRawTime
    rw [firstParse_first_success s.toList rawTimeLayouts i hi t hp hprev]
  · intro h
    unfold parseRawTime
    rw [firstParse_eq_none s.toList rawTimeLayouts h]
    rfl

/-- Witness for C4: a first-layout success and a no-layout failure. -/
theorem parseRawTime_first_success_witness :
    parseRawTime ("02 Jan 06 15:04 UTC") =
      .ok { year := 2006, month := 1, day := 2, hour := 15, minute := 4,
            offset := 0, zoneName := "UTC" } ∧
    parseRawTime ("garbage") = .error (timeErrPre ++ "garbage" ++ timeErrPost) :=
  ⟨(parseRawTime_first_success ("02 Jan 06 15:04 UTC")).1 0 (by decide)
      { year := 2006, month := 1, day := 2, hour := 15, minute := 4,
        offset := 0, zoneName := "UTC" } rfl
      (fun j hj => absurd hj (Nat.not_lt_zero j)),
   (parseRawTime_first_success ("garbage")).2 (by decide)⟩

/-! ## Prefix lemma for a failing entry -/

theorem ingestItems_prefix_bad (env : Env) (fid : Nat)
    (hfault : ∀ n, env.insertFault n = none) :
    ∀ (pre : List RSSItem) (w : World) (idx : Nat) (item : RSSItem)
      (rest : List RSSItem) (e : String),
      (∀ it ∈ pre, ∃ t, parseRawTime it.pubDate = .ok t) →
      parseRawTime item.pubDate = .error e →
      ingestItems env fid (pre ++ item :: rest) w idx =
        ⟨(ingestItems env fid pre w idx).world,
         (ingestItems env fid pre w idx).trace,
         some (.badTimestamp e)⟩ := by
  intro pre
  induction pre with
  | nil =>
    intro w idx item rest e _ hbad
    rw [List.nil_append, ingestItems_cons_badTime env fid item rest w idx e hbad,
      ingestItems_nil]
  | cons it pre ih =>
    intro w idx item rest e hok hbad
    obtain ⟨t, hpt⟩ := hok it (List.mem_cons_self it pre)
    have hok' : ∀ x ∈ pre, ∃ t, parseRawTime x.pubDate = .ok t :=
      fun x hx => hok x (List.mem_cons_of_mem it hx)
    by_cases hdup : (w.posts.any fun q => q.url = it.link) = true
    · rw [List.cons_append,
        ingestItems_cons_dup env fid it (pre ++ item :: rest) w idx t hpt (hfault idx) hdup,
        ingestItems_cons_dup env fid it pre w idx t hpt (hfault idx) hdup,
        ih w (idx + 1) item rest e hok' hbad]
      simp [consOut]
    · have hdup' : (w.posts.any fun q => q.url = it.link) = false := by
        revert hdup
        cases w.posts.any fun q => q.url = it.link <;> simp
      rw [List.cons_append,
        ingestItems_cons_insert env fid it (pre ++ item :: rest) w idx t hpt
          (hfault idx) hdup',
        ingestItems_cons_insert env fid it pre w idx t hpt (hfault idx) hdup',
        ih _ (idx + 1) item rest e hok' hbad]
      simp [consOut]

/-- C5: Entries are processed in document order; when normalizing the
publication date of one entry fails, the whole cycle for that feed fails
with the timestamp error, the store and trace are exactly those produced
by the entries before it (posts already created remain persisted), and the
entries after it are never attempted. -/
theorem scrapeFeeds_bad_entry_aborts (env : Env) (w : World)
    (row : FollowRow × FeedRow) (doc : RSSFeed)
    (pre : List RSSItem) (item : RSSItem) (rest : List RSSItem) (e : String)
    (hsel : env.selFault = none) (hrow : getNextFeedToFetch w = some row)
    (hmark : env.markFault = false)
    (hfetch : FetchFeed (env.fetchResult row.2.url) = .ok doc)
    (hitems : doc.channel.item = pre ++ item :: rest)
    (hfault : ∀ n, env.insertFault n = none)
    (hok : ∀ it ∈ pre, ∃ t, parseRawTime it.pubDate = .ok t)
    (hbad : parseRawTime item.pubDate = .error e) :
    scrapeFeeds env w =
      ⟨(ingestItems env row.2.id pre (markFeedFetched w row.2.id env.now) 0).world,
       [.selectNext, .markFetched row.2.id env.now, .fetchFeed row.2.url] ++
         (ingestItems env row.2.id pre (markFeedFetched w row.2.id env.now) 0).trace,
       .error (.badTimestamp e)⟩ := by
  simp only [scrapeFeeds, hsel, hrow, hmark, Bool.false_eq_true, if_false, hfetch]
  rw [hitems, ingestItems_prefix_bad env row.2.id hfault pre _ 0 item rest e hok hbad]

/-- Witness for C5: in the concrete three-entry document whose second
entry is unparseable, the first entry's post is persisted and the third is
never attempted. -/
theorem scrapeFeeds_bad_entry_aborts_witness :
    scrapeFeeds exEnvBadDoc exWorld =
      ⟨(ingestItems exEnvBadDoc exFeedA.id [exItem1]
          (markFeedFetched exWorld exFeedA.id exNow) 0).world,
       [.selectNext, .markFetched exFeedA.id exNow, .fetchFeed exFeedA.url] ++
         (ingestItems exEnvBadDoc exFeedA.id [exItem1]
           (markFeedFetched exWorld exFeedA.id exNow) 0).trace,
       .error (.badTimestamp (timeErrPre ++ "garbage" ++ timeErrPost))⟩ :=
  scrapeFeeds_bad_entry_aborts exEnvBadDoc exWorld (⟨10, 100, 1⟩, exFeedA)
    ⟨⟨"Ch", "L", "Ch", [exItem1, exItemBad, exItem2]⟩⟩
    [exItem1] exItemBad [exItem2] (timeErrPre ++ "garbage" ++ timeErrPost)
    rfl (by decide) rfl rfl rfl (fun n => rfl)
    (by
      intro it hit
      rw [List.mem_singleton] at hit
      subst hit
      exact ⟨{ year := 2006, month := 1, day := 2, hour := 15, minute := 4,
               second := 5, offset := 0, zoneName := "MST" }, rfl⟩)
    rfl

/-- C1 (amended): In the per-entry insertion error handling, a
server-reported uniqueness violation on the post-link constraint
(`posts_url_key`) is skipped silently with the store unchanged and the
loop continuing; a server-reported (`*pq.Error`) failure with any other
code or constraint aborts the remaining entries and is surfaced; an
insertion failure that is **not** a server-reported error (e.g. a
connectivity failure) is — unlike what the claim states — also skipped
silently; and ingesting the same link twice persists exactly one post with
no caller-observable error. -/
theorem ingest_insert_error_policy (env : Env) (fid : Nat) (item : RSSItem)
    (rest : List RSSItem) (w : World) (idx : Nat) (t : GoTime)
    (hp : parseRawTime item.pubDate = .ok t) :
    ((env.insertFault idx = none) → (w.posts.any fun q => q.url = item.link) = true →
      ingestItems env fid (item :: rest) w idx =
        consOut (.insertAttempt item.link) (ingestItems env fid rest w (idx + 1))) ∧
    (∀ code constraint, env.insertFault idx = some (.pqError code constraint) →
      ¬(code = uniqueViolationCode ∧ constraint = "posts_url_key") →
      ingestItems env fid (item :: rest) w idx =
        ⟨w, [.insertAttempt item.link],
         some (.insertFailed (.pqError code constraint))⟩) ∧
    (∀ msg, env.insertFault idx = some (.otherError msg) →
      ingestItems env fid (item :: rest) w idx =
        consOut (.insertAttempt item.link) (ingestItems env fid rest w (idx + 1))) ∧
    ((∀ n, env.insertFault n = none) → (∀ q ∈ w.posts, ¬q.url = item.link) →
      ((ingestItems env fid [item, item] w idx).world.posts.countP
          (fun q => q.url = item.link) = 1 ∧
        (ingestItems env fid [item, item] w idx).err = none)) := by
  refine ⟨?_, ?_, ?_, ?_⟩
  · intro hf hdup
    exact ingestItems_cons_dup env fid item rest w idx t hp hf hdup
  · intro code constraint hf hnk
    exact ingestItems_cons_pqAbort env fid item rest w idx t code constraint hp hf hnk
  · intro msg hf
    exact ingestItems_cons_otherSkip env fid item rest w idx t msg hp hf
  · intro hfault hno
    have hdup0 : (w.posts.any fun q => q.url = item.link) = false := by
      rw [List.any_eq_false]
      intro q hq
      simpa using hno q hq
    rw [ingestItems_cons_insert env fid item [item] w idx t hp (hfault idx) hdup0]
    have hdup1 : ((withPost w (postOf item idx fid t)).posts.any
        fun q => q.url = item.link) = true := by
      rw [List.any_eq_true]
      exact ⟨postOf item idx fid t, by simp [withPost, postOf]⟩
    rw [ingestItems_cons_dup env fid item [] (withPost w (postOf item idx fid t))
        (idx + 1) t hp (hfault (idx + 1)) hdup1, ingestItems_nil]
    have h0 : w.posts.countP (fun q => decide (q.url = item.link)) = 0 := by
      rw [List.countP_eq_zero]
      intro q hq
      simpa using hno q hq
    constructor
    · simp [consOut, withPost, postOf, List.countP_append, h0]
    · simp [consOut]

/-- Counterexample to C1 as stated: a connectivity failure (an insertion
error that is not a `*pq.Error`) on the first entry does **not** abort the
remaining entries and is not surfaced — the cycle skips the entry,
attempts the next one, and reports success. -/
theorem scrapeFeeds_conn_fault_not_surfaced :
    (scrapeFeeds exEnvConnFault exWorld).result = .ok () ∧
    (scrapeFeeds exEnvConnFault exWorld).trace =
      [.selectNext, .markFetched 1 exNow, .fetchFeed ("http://a"),
       .insertAttempt ("/a"), .insertAttempt ("/b")] ∧
    (scrapeFeeds exEnvConnFault exWorld).world.posts.map (fun p => p.url) = ["/b"] :=
  ⟨rfl, rfl, rfl⟩

/-- Witness for C1's amended policy, one concrete instance per branch. -/
theorem ingest_insert_error_policy_witness :
    (ingestItems exEnv 1 [exItem1] ⟨[], [], [⟨99, "T", "/a", "D", {}, 1⟩]⟩ 0 =
      consOut (.insertAttempt ("/a"))
        (ingestItems exEnv 1 [] ⟨[], [], [⟨99, "T", "/a", "D", {}, 1⟩]⟩ 1)) ∧
    (ingestItems { exEnv with insertFault := fun _ => some (.pqError ("23505") ("posts_pkey")) }
        1 [exItem1] ⟨[], [], []⟩ 0 =
      ⟨⟨[], [], []⟩, [.insertAttempt ("/a")],
       some (.insertFailed (.pqError ("23505") ("posts_pkey")))⟩) ∧
    (ingestItems { exEnv with insertFault := fun _ => some (.otherError ("conn")) }
        1 [exItem1] ⟨[], [], []⟩ 0 =
      consOut (.insertAttempt ("/a"))
        (ingestItems { exEnv with insertFault := fun _ => some (.otherError ("conn")) }
          1 [] ⟨[], [], []⟩ 1)) ∧
    ((ingestItems exEnv 1 [exItem1, exItem1] ⟨[], [], []⟩ 0).world.posts.countP
        (fun q => q.url = exItem1.link) = 1 ∧
      (ingestItems exEnv 1 [exItem1, exItem1] ⟨[], [], []⟩ 0).err = none) :=
  ⟨(ingest_insert_error_policy exEnv 1 exItem1 [] ⟨[], [], [⟨99, "T", "/a", "D", {}, 1⟩]⟩ 0
      { year := 2006, month := 1, day := 2, hour := 15, minute := 4, second := 5,
        offset := 0, zoneName := "MST" } rfl).1 rfl (by decide),
   (ingest_insert_error_policy
      { exEnv with insertFault := fun _ => some (.pqError ("23505") ("posts_pkey")) }
      1 exItem1 [] ⟨[], [], []⟩ 0
      { year := 2006, month := 1, day := 2, hour := 15, minute := 4, second := 5,
        offset := 0, zoneName := "MST" } rfl).2.1 ("23505") ("posts_pkey") rfl (by decide),
   (ingest_insert_error_policy
      { exEnv with insertFault := fun _ => some (.otherError ("conn")) }
      1 exItem1 [] ⟨[], [], []⟩ 0
      { year := 2006, month := 1, day := 2, hour := 15, minute := 4, second := 5,
        offset := 0, zoneName := "MST" } rfl).2.2.1 ("conn") rfl,
   (ingest_insert_error_policy exEnv 1 exItem1 [] ⟨[], [], []⟩ 0
      { year := 2006, month := 1, day := 2, hour := 15, minute := 4, second := 5,
        offset := 0, zoneName := "MST" } rfl).2.2.2 (fun n => rfl)
      (fun q hq => absurd hq (List.not_mem_nil q))⟩

/-! ## Digit and prefix lemmas for the round-trip development -/

theorem digitChar_toNat (d : Nat) (h : d < 10) : (digitChar d).toNat = 48 + d := by
  interval_cases d <;> decide

theorem isDigitChar_digitChar (d : Nat) (h : d < 10) : isDigitChar (digitChar d) = true := by
  interval_cases d <;> decide

theorem digitVal_digitChar (d : Nat) (h : d < 10) : digitVal (digitChar d) = d := by
  interval_cases d <;> decide

theorem digitChar_ne_space (d : Nat) (h : d < 10) : ¬(digitChar d = ' ') := by
  interval_cases d <;> decide

theorem getnum2_format2 (n : Nat) (h : n < 100) (rest : List Char) :
    getnum2 (format2 n ++ rest) = some (n, rest) := by
  have h1 : n / 10 < 10 := by omega
  have h2 : n % 10 < 10 := by omega
  simp [format2, getnum2, isDigitChar_digitChar _ h1, isDigitChar_digitChar _ h2,
    digitVal_digitChar _ h1, digitVal_digitChar _ h2]
  omega

theorem getnum4_format4 (n : Nat) (h : n < 10000) (rest : List Char) :
    getnum4 (format4 n ++ rest) = some (n, rest) := by
  have h1 : n / 1000 < 10 := by omega
  have h2 : n / 100 % 10 < 10 := by omega
  have h3 : n / 10 % 10 < 10 := by omega
  have h4 : n % 10 < 10 := by omega
  simp [format4, getnum4, isDigitChar_digitChar _ h1, isDigitChar_digitChar _ h2,
    isDigitChar_digitChar _ h3, isDigitChar_digitChar _ h4,
    digitVal_digitChar _ h1, digitVal_digitChar _ h2,
    digitVal_digitChar _ h3, digitVal_digitChar _ h4]
  omega

theorem getnum2_not_digit (c : Char) (l : List Char) (h : isDigitChar c = false) :
    getnum2 (c :: l) = none := by
  cases l with
  | nil => rfl
  | cons c2 r => simp [getnum2, h]

theorem stripPre_append (p : List Char) : ∀ l : List Char, stripPre p (p ++ l) = some l := by
  induction p with
  | nil => intro l; rfl
  | cons c cs ih => intro l; simp [stripPre, ih]

/-! ## Per-element parse lemmas (the production of each format element
parses back to the field it printed) -/

theorem elemParse_lit_space (st : GoTime) (rest : List Char) :
    elemParse (.lit (" ")) st (' ' :: rest) = some (st, rest) := rfl

theorem elemParse_lit_colon (st : GoTime) (rest : List Char) :
    elemParse (.lit (":")) st (':' :: rest) = some (st, rest) := rfl

theorem elemParse_lit_dash (st : GoTime) (rest : List Char) :
    elemParse (.lit ("-")) st ('-' :: rest) = some (st, rest) := rfl

theorem elemParse_lit_T (st : GoTime) (rest : List Char) :
    elemParse (.lit ("T")) st ('T' :: rest) = some (st, rest) := rfl

theorem elemParse_lit_commaSpace (st : GoTime) (rest : List Char) :
    elemParse (.lit (", ")) st (',' :: ' ' :: rest) = some (st, rest) := rfl

theorem elemParse_day2 (d : Nat) (h : d < 100) (st : GoTime) (rest : List Char) :
    elemParse .day2 st (format2 d ++ rest) = some ({ st with day := d }, rest) := by
  simp [elemParse, getnum2_format2 d h]

theorem elemParse_month2 (m : Nat) (h : m < 100) (st : GoTime) (rest : List Char) :
    elemParse .month2 st (format2 m ++ rest) = some ({ st with month := m }, rest) := by
  simp [elemParse, getnum2_format2 m h]

theorem elemParse_hour2 (n : Nat) (h : n < 100) (st : GoTime) (rest : List Char) :
    elemParse .hour2 st (format2 n ++ rest) = some ({ st with hour := n }, rest) := by
  simp [elemParse, getnum2_format2 n h]

theorem elemParse_min2 (n : Nat) (h : n < 100) (st : GoTime) (rest : List Char) :
    elemParse .min2 st (format2 n ++ rest) = some ({ st with minute := n }, rest) := by
  simp [elemParse, getnum2_format2 n h]

theorem elemParse_year2 (y : Nat) (h1 : 1969 ≤ y) (h2 : y ≤ 2068)
    (st : GoTime) (rest : List Char) :
    elemParse .year2 st (format2 (y % 100) ++ rest) = some ({ st with year := y }, rest) := by
  have h100 : y % 100 < 100 := by omega
  have hy : (if 69 ≤ y % 100 then 1900 + y % 100 else 2000 + y % 100) = y := by
    split <;> omega
  simp [elemParse, getnum2_format2 _ h100, hy]

theorem elemParse_year4 (y : Nat) (h : y < 10000) (st : GoTime) (rest : List Char) :
    elemParse .year4 st (format4 y ++ rest) = some ({ st with year := y }, rest) := by
  simp [elemParse, getnum4_format4 y h]

theorem parseFracOpt_cons (c : Char) (hc1 : ¬(c = '.')) (hc2 : ¬(c = ','))
    (l : List Char) : parseFracOpt (c :: l) = some (none, c :: l) := by
  simp [parseFracOpt, hc1, hc2]

theorem elemParse_sec2_cons (s : Nat) (hs : s < 100) (st : GoTime) (c : Char)
    (hc1 : ¬(c = '.')) (hc2 : ¬(c = ',')) (rest : List Char) :
    elemParse .sec2 st (format2 s ++ c :: rest) =
      some ({ st with second := s }, c :: rest) := by
  simp [elemParse, getnum2_format2 s hs, parseFracOpt_cons c hc1 hc2]

theorem elemParse_monthName (m : Nat) (h1 : 1 ≤ m) (h2 : m ≤ 12)
    (st : GoTime) (rest : List Char) :
    elemParse .monthName3 st ((monthShortName m).toList ++ rest) =
      some ({ st with month := m }, rest) := by
  interval_cases m <;> rfl

theorem elemParse_dayName3 (wd : Nat) (h : wd < 7) (st : GoTime) (rest : List Char) :
    elemParse .dayName3 st ((shortDayNames.getD wd ("Sun")).toList ++ rest) =
      some (st, rest) := by
  interval_cases wd <;> rfl

theorem elemParse_dayNameFull (wd : Nat) (h : wd < 7) (st : GoTime) (rest : List Char) :
    elemParse .dayNameFull st ((longDayNames.getD wd ("Sunday")).toList ++ rest) =
      some (st, rest) := by
  interval_cases wd <;> rfl

theorem elemParse_zoneAbbr_utc (st : GoTime) :
    elemParse .zoneAbbr st (("UTC").toList) =
      some ({ st with offset := 0, zoneName := "UTC" }, []) := rfl

theorem zoneNumChars_zero : zoneNumChars 0 = '+' :: '0' :: '0' :: '0' :: '0' :: [] := rfl

theorem elemParse_zoneNum_zero (st : GoTime) :
    elemParse .zoneNum st ('+' :: '0' :: '0' :: '0' :: '0' :: []) =
      some ({ st with offset := 0, zoneName := "" }, []) := rfl

theorem zoneISOChars_zero : zoneISOChars 0 = 'Z' :: [] := rfl

theorem elemParse_zoneISO_Z (st : GoTime) :
    elemParse .zoneISO st ('Z' :: []) =
      some ({ st with offset := 0, zoneName := "UTC" }, []) := rfl

theorem fracChars_zero : fracChars 0 = [] := rfl

theorem elemParse_fracNano_Z (st : GoTime) :
    elemParse .fracNano st ('Z' :: []) = some (st, 'Z' :: []) := rfl

theorem weekdayIdx_lt (t : GoTime) : weekdayIdx t < 7 := by
  unfold weekdayIdx
  have h1 : 0 ≤ (daysFromCivil t.year t.month t.day + 4) % 7 :=
    Int.emod_nonneg _ (by norm_num)
  have h2 : (daysFromCivil t.year t.month t.day + 4) % 7 < 7 :=
    Int.emod_lt_of_pos _ (by norm_num)
  omega

/-! ## Formatted shapes of the seven layouts -/

theorem daysInMonth_le (y m : Nat) : daysInMonth y m ≤ 31 := by
  unfold daysInMonth
  split
  · split <;> omega
  · split <;> omega

theorem validateTime_ok (st : GoTime) (h1 : 1 ≤ st.month) (h2 : st.month ≤ 12)
    (h3 : 1 ≤ st.day) (h4 : st.day ≤ daysInMonth st.year st.month) (h5 : st.hour < 24)
    (h6 : st.minute < 60) (h7 : st.second < 60) (h8 : st.nsec < 1000000000) :
    validateTime st = some st := by
  unfold validateTime
  rw [if_pos]
  exact ⟨h1, h2, h3, h4, h5, h6, h7, h8⟩

theorem goFormat_822 (yr mo dy hh mi ss ns : Nat) (off : Int) (zn : String) :
    goFormat layoutRFC822 ⟨yr, mo, dy, hh, mi, ss, ns, off, zn⟩ =
      format2 dy ++ ' ' :: ((monthShortName mo).toList ++ ' ' ::
        (format2 (yr % 100) ++ ' ' :: (format2 hh ++ ':' ::
          (format2 mi ++ ' ' :: zn.toList)))) := by
  simp [goFormat, layoutRFC822, formatElem]

theorem goFormat_822z (yr mo dy hh mi ss ns : Nat) (off : Int) (zn : String) :
    goFormat layoutRFC822Z ⟨yr, mo, dy, hh, mi, ss, ns, off, zn⟩ =
      format2 dy ++ ' ' :: ((monthShortName mo).toList ++ ' ' ::
        (format2 (yr % 100) ++ ' ' :: (format2 hh ++ ':' ::
          (format2 mi ++ ' ' :: zoneNumChars off)))) := by
  simp [goFormat, layoutRFC822Z, formatElem]

theorem goFormat_850 (yr mo dy hh mi ss ns : Nat) (off : Int) (zn : String) :
    goFormat layoutRFC850 ⟨yr, mo, dy, hh, mi, ss, ns, off, zn⟩ =
      (longDayNames.getD (weekdayIdx ⟨yr, mo, dy, hh, mi, ss, ns, off, zn⟩)
          ("Sunday")).toList ++ ',' :: ' ' ::
        (format2 dy ++ '-' :: ((monthShortName mo).toList ++ '-' ::
          (format2 (yr % 100) ++ ' ' :: (format2 hh ++ ':' ::
            (format2 mi ++ ':' :: (format2 ss ++ ' ' :: zn.toList)))))) := by
  simp [goFormat, layoutRFC850, formatElem]

theorem goFormat_1123 (yr mo dy hh mi ss ns : Nat) (off : Int) (zn : String) :
    goFormat layoutRFC1123 ⟨yr, mo, dy, hh, mi, ss, ns, off, zn⟩ =
      (shortDayNames.getD (weekdayIdx ⟨yr, mo, dy, hh, mi, ss, ns, off, zn⟩)
          ("Sun")).toList ++ ',' :: ' ' ::
        (format2 dy ++ ' ' :: ((monthShortName mo).toList ++ ' ' ::
          (format4 yr ++ ' ' :: (format2 hh ++ ':' ::
            (format2 mi ++ ':' :: (format2 ss ++ ' ' :: zn.toList)))))) := by
  simp [goFormat, layoutRFC1123, formatElem]

theorem goFormat_1123z (yr mo dy hh mi ss ns : Nat) (off : Int) (zn : String) :
    goFormat layoutRFC1123Z ⟨yr, mo, dy, hh, mi, ss, ns, off, zn⟩ =
      (shortDayNames.getD (weekdayIdx ⟨yr, mo, dy, hh, mi, ss, ns, off, zn⟩)
          ("Sun")).toList ++ ',' :: ' ' ::
        (format2 dy ++ ' ' :: ((monthShortName mo).toList ++ ' ' ::
          (format4 yr ++ ' ' :: (format2 hh ++ ':' ::
            (format2 mi ++ ':' :: (format2 ss ++ ' ' :: zoneNumChars off)))))) := by
  simp [goFormat, layoutRFC1123Z, formatElem]

theorem goFormat_3339 (yr mo dy hh mi ss ns : Nat) (off : Int) (zn : String) :
    goFormat layoutRFC3339 ⟨yr, mo, dy, hh, mi, ss, ns, off, zn⟩ =
      format4 yr ++ '-' :: (format2 mo ++ '-' :: (format2 dy ++ 'T' ::
        (format2 hh ++ ':' :: (format2 mi ++ ':' ::
          (format2 ss ++ zoneISOChars off))))) := by
  simp [goFormat, layoutRFC3339, formatElem]

theorem goFormat_3339nano (yr mo dy hh mi ss ns : Nat) (off : Int) (zn : String) :
    goFormat layoutRFC3339Nano ⟨yr, mo, dy, hh, mi, ss, ns, off, zn⟩ =
      format4 yr ++ '-' :: (format2 mo ++ '-' :: (format2 dy ++ 'T' ::
        (format2 hh ++ ':' :: (format2 mi ++ ':' ::
          (format2 ss ++ (fracChars ns ++ zoneISOChars off)))))) := by
  simp [goFormat, layoutRFC3339Nano, formatElem]

/-! ## Each layout parses its own formatted output back (A-series) -/

theorem parse_own_822 (yr mo dy hh mi : Nat)
    (hmo1 : 1 ≤ mo) (hmo2 : mo ≤ 12) (hd1 : 1 ≤ dy) (hd2 : dy ≤ daysInMonth yr mo)
    (hh24 : hh < 24) (hmi60 : mi < 60) (hy1 : 1969 ≤ yr) (hy2 : yr ≤ 2068) :
    goTimeParse layoutRFC822 (goFormat layoutRFC822 ⟨yr, mo, dy, hh, mi, 0, 0, 0, "UTC"⟩) =
      some ⟨yr, mo, dy, hh, mi, 0, 0, 0, "UTC"⟩ := by
  have hdy100 : dy < 100 := by
    have := daysInMonth_le yr mo
    omega
  rw [goFormat_822]
  unfold goTimeParse
  simp only [layoutRFC822, parseElems,
    elemParse_day2 dy hdy100, elemParse_lit_space,
    elemParse_monthName mo hmo1 hmo2,
    elemParse_year2 yr hy1 hy2,
    elemParse_hour2 hh (by omega), elemParse_lit_colon,
    elemParse_min2 mi (by omega),
    elemParse_zoneAbbr_utc]
  exact validateTime_ok ⟨yr, mo, dy, hh, mi, 0, 0, 0, "UTC"⟩ hmo1 hmo2 hd1 hd2 hh24
    hmi60 (by show (0 : Nat) < 60; omega) (by show (0 : Nat) < 1000000000; omega)

theorem parse_own_822z (yr mo dy hh mi : Nat)
    (hmo1 : 1 ≤ mo) (hmo2 : mo ≤ 12) (hd1 : 1 ≤ dy) (hd2 : dy ≤ daysInMonth yr mo)
    (hh24 : hh < 24) (hmi60 : mi < 60) (hy1 : 1969 ≤ yr) (hy2 : yr ≤ 2068) :
    goTimeParse layoutRFC822Z (goFormat layoutRFC822Z ⟨yr, mo, dy, hh, mi, 0, 0, 0, "UTC"⟩) =
      some ⟨yr, mo, dy, hh, mi, 0, 0, 0, ""⟩ := by
  have hdy100 : dy < 100 := by
    have := daysInMonth_le yr mo
    omega
  rw [goFormat_822z, zoneNumChars_zero]
  unfold goTimeParse
  simp only [layoutRFC822Z, parseElems,
    elemParse_day2 dy hdy100, elemParse_lit_space,
    elemParse_monthName mo hmo1 hmo2,
    elemParse_year2 yr hy1 hy2,
    elemParse_hour2 hh (by omega), elemParse_lit_colon,
    elemParse_min2 mi (by omega),
    elemParse_zoneNum_zero]
  exact validateTime_ok ⟨yr, mo, dy, hh, mi, 0, 0, 0, ""⟩ hmo1 hmo2 hd1 hd2 hh24
    hmi60 (by show (0 : Nat) < 60; omega) (by show (0 : Nat) < 1000000000; omega)

theorem parse_own_850 (yr mo dy hh mi ss : Nat)
    (hmo1 : 1 ≤ mo) (hmo2 : mo ≤ 12) (hd1 : 1 ≤ dy) (hd2 : dy ≤ daysInMonth yr mo)
    (hh24 : hh < 24) (hmi60 : mi < 60) (hss60 : ss < 60)
    (hy1 : 1969 ≤ yr) (hy2 : yr ≤ 2068) :
    goTimeParse layoutRFC850 (goFormat layoutRFC850 ⟨yr, mo, dy, hh, mi, ss, 0, 0, "UTC"⟩) =
      some ⟨yr, mo, dy, hh, mi, ss, 0, 0, "UTC"⟩ := by
  have hdy100 : dy < 100 := by
    have := daysInMonth_le yr mo
    omega
  rw [goFormat_850]
  unfold goTimeParse
  simp only [layoutRFC850, parseElems,
    elemParse_dayNameFull (weekdayIdx ⟨yr, mo, dy, hh, mi, ss, 0, 0, "UTC"⟩)
      (weekdayIdx_lt _),
    elemParse_lit_commaSpace,
    elemParse_day2 dy hdy100, elemParse_lit_dash,
    elemParse_monthName mo hmo1 hmo2,
    elemParse_year2 yr hy1 hy2, elemParse_lit_space,
    elemParse_hour2 hh (by omega), elemParse_lit_colon,
    elemParse_min2 mi (by omega),
    elemParse_sec2_cons ss (by omega) _ ' ' (by decide) (by decide),
    elemParse_zoneAbbr_utc]
  exact validateTime_ok ⟨yr, mo, dy, hh, mi, ss, 0, 0, "UTC"⟩ hmo1 hmo2 hd1 hd2 hh24
    hmi60 hss60 (by show (0 : Nat) < 1000000000; omega)

theorem parse_own_1123 (yr mo dy hh mi ss : Nat)
    (hmo1 : 1 ≤ mo) (hmo2 : mo ≤ 12) (hd1 : 1 ≤ dy) (hd2 : dy ≤ daysInMonth yr mo)
    (hh24 : hh < 24) (hmi60 : mi < 60) (hss60 : ss < 60)
    (hy1 : 1 ≤ yr) (hy2 : yr ≤ 9999) :
    goTimeParse layoutRFC1123 (goFormat layoutRFC1123 ⟨yr, mo, dy, hh, mi, ss, 0, 0, "UTC"⟩) =
      some ⟨yr, mo, dy, hh, mi, ss, 0, 0, "UTC"⟩ := by
  have hdy100 : dy < 100 := by
    have := daysInMonth_le yr mo
    omega
  rw [goFormat_1123]
  unfold goTimeParse
  simp only [layoutRFC1123, parseElems,
    elemParse_dayName3 (weekdayIdx ⟨yr, mo, dy, hh, mi, ss, 0, 0, "UTC"⟩)
      (weekdayIdx_lt _),
    elemParse_lit_commaSpace,
    elemParse_day2 dy hdy100, elemParse_lit_space,
    elemParse_monthName mo hmo1 hmo2,
    elemParse_year4 yr (by omega),
    elemParse_hour2 hh (by omega), elemParse_lit_colon,
    elemParse_min2 mi (by omega),
    elemParse_sec2_cons ss (by omega) _ ' ' (by decide) (by decide),
    elemParse_zoneAbbr_utc]
  exact validateTime_ok ⟨yr, mo, dy, hh, mi, ss, 0, 0, "UTC"⟩ hmo1 hmo2 hd1 hd2 hh24
    hmi60 hss60 (by show (0 : Nat) < 1000000000; omega)

theorem parse_own_1123z (yr mo dy hh mi ss : Nat)
    (hmo1 : 1 ≤ mo) (hmo2 : mo ≤ 12) (hd1 : 1 ≤ dy) (hd2 : dy ≤ daysInMonth yr mo)
    (hh24 : hh < 24) (hmi60 : mi < 60) (hss60 : ss < 60)
    (hy1 : 1 ≤ yr) (hy2 : yr ≤ 9999) :
    goTimeParse layoutRFC1123Z (goFormat layoutRFC1123Z ⟨yr, mo, dy, hh, mi, ss, 0, 0, "UTC"⟩) =
      some ⟨yr, mo, dy, hh, mi, ss, 0, 0, ""⟩ := by
  have hdy100 : dy < 100 := by
    have := daysInMonth_le yr mo
    omega
  rw [goFormat_1123z, zoneNumChars_zero]
  unfold goTimeParse
  simp only [layoutRFC1123Z, parseElems,
    elemParse_dayName3 (weekdayIdx ⟨yr, mo, dy, hh, mi, ss, 0, 0, "UTC"⟩)
      (weekdayIdx_lt _),
    elemParse_lit_commaSpace,
    elemParse_day2 dy hdy100, elemParse_lit_space,
    elemParse_monthName mo hmo1 hmo2,
    elemParse_year4 yr (by omega),
    elemParse_hour2 hh (by omega), elemParse_lit_colon,
    elemParse_min2 mi (by omega),
    elemParse_sec2_cons ss (by omega) _ ' ' (by decide) (by decide),
    elemParse_zoneNum_zero]
  exact validateTime_ok ⟨yr, mo, dy, hh, mi, ss, 0, 0, ""⟩ hmo1 hmo2 hd1 hd2 hh24
    hmi60 hss60 (by show (0 : Nat) < 1000000000; omega)

theorem parse_own_3339 (yr mo dy hh mi ss : Nat)
    (hmo1 : 1 ≤ mo) (hmo2 : mo ≤ 12) (hd1 : 1 ≤ dy) (hd2 : dy ≤ daysInMonth yr mo)
    (hh24 : hh < 24) (hmi60 : mi < 60) (hss60 : ss < 60)
    (hy1 : 1 ≤ yr) (hy2 : yr ≤ 9999) :
    goTimeParse layoutRFC3339 (goFormat layoutRFC3339 ⟨yr, mo, dy, hh, mi, ss, 0, 0, "UTC"⟩) =
      some ⟨yr, mo, dy, hh, mi, ss, 0, 0, "UTC"⟩ := by
  have hdy100 : dy < 100 := by
    have := daysInMonth_le yr mo
    omega
  rw [goFormat_3339, zoneISOChars_zero]
  unfold goTimeParse
  simp only [layoutRFC3339, parseElems,
    elemParse_year4 yr (by omega), elemParse_lit_dash,
    elemParse_month2 mo (by omega),
    elemParse_day2 dy hdy100, elemParse_lit_T,
    elemParse_hour2 hh (by omega), elemParse_lit_colon,
    elemParse_min2 mi (by omega),
    elemParse_sec2_cons ss (by omega) _ 'Z' (by decide) (by decide),
    elemParse_zoneISO_Z]
  exact validateTime_ok ⟨yr, mo, dy, hh, mi, ss, 0, 0, "UTC"⟩ hmo1 hmo2 hd1 hd2 hh24
    hmi60 hss60 (by show (0 : Nat) < 1000000000; omega)

theorem goFormat_nano_eq_3339 (yr mo dy hh mi ss : Nat) (off : Int) (zn : String) :
    goFormat layoutRFC3339Nano ⟨yr, mo, dy, hh, mi, ss, 0, off, zn⟩ =
      goFormat layoutRFC3339 ⟨yr, mo, dy, hh, mi, ss, 0, off, zn⟩ := by
  rw [goFormat_3339nano, goFormat_3339, fracChars_zero]
  simp

/-! ## Earlier layouts reject later layouts' output (B-series) -/

theorem stripPre_head_ne (p : Char) (ps : List Char) (c : Char) (l : List Char)
    (h : ¬(c = p)) : stripPre (p :: ps) (c :: l) = none := by
  simp [stripPre, h]

theorem tryNames_fail_of_digit (c : Char) (hdig : isDigitChar c = true) (l : List Char) :
    ∀ tbl : List (String × Nat),
      (∀ p ∈ tbl, ¬(p.1.toList = []) ∧ 64 < (p.1.toList.headD ('a')).toNat) →
      tryNames tbl (c :: l) = none := by
  intro tbl
  induction tbl with
  | nil => intro _; rfl
  | cons hd tl ih =>
    intro hall
    obtain ⟨nm, v⟩ := hd
    have h1 := hall (nm, v) (List.mem_cons_self _ _)
    cases hnm : nm.toList with
    | nil => exact absurd hnm h1.1
    | cons d ds =>
      have hd64 : 64 < d.toNat := by
        have h2 := h1.2
        rw [hnm] at h2
        simpa using h2
      have hcd : ¬(c = d) := by
        intro he
        subst he
        unfold isDigitChar at hdig
        simp at hdig
        omega
      show tryNames ((nm, v) :: tl) (c :: l) = none
      unfold tryNames
      rw [hnm, stripPre_head_ne d ds c l hcd]
      exact ih fun p hp => hall p (List.mem_cons_of_mem _ hp)

theorem elemParse_zoneAbbr_plus (st : GoTime) (l : List Char) :
    elemParse .zoneAbbr st ('+' :: l) = none := rfl

theorem elemParse_day2_first2of4 (n : Nat) (h : n < 10000) (st : GoTime) (rest : List Char) :
    elemParse .day2 st (format4 n ++ rest) =
      some ({ st with day := n / 1000 * 10 + n / 100 % 10 },
        digitChar (n / 10 % 10) :: digitChar (n % 10) :: rest) := by
  have h1 : n / 1000 < 10 := by omega
  have h2 : n / 100 % 10 < 10 := by omega
  simp [elemParse, format4, getnum2, isDigitChar_digitChar _ h1, isDigitChar_digitChar _ h2,
    digitVal_digitChar _ h1, digitVal_digitChar _ h2]

theorem elemParse_lit_space_digit_fail (d : Nat) (hd : d < 10) (st : GoTime)
    (l : List Char) : elemParse (.lit (" ")) st (digitChar d :: l) = none := by
  have hne : ¬(digitChar d = ' ') := digitChar_ne_space d hd
  simp only [elemParse]
  rw [show (" ").toList = ' ' :: [] from rfl, stripPre_head_ne ' ' [] (digitChar d) l hne]
  rfl

theorem parse822_fails_long_day (wd : Nat) (h : wd < 7) (X : List Char) :
    goTimeParse layoutRFC822 ((longDayNames.getD wd ("Sunday")).toList ++ X) = none := by
  interval_cases wd <;> rfl

theorem parse822z_fails_long_day (wd : Nat) (h : wd < 7) (X : List Char) :
    goTimeParse layoutRFC822Z ((longDayNames.getD wd ("Sunday")).toList ++ X) = none := by
  interval_cases wd <;> rfl

theorem parse822_fails_short_day (wd : Nat) (h : wd < 7) (X : List Char) :
    goTimeParse layoutRFC822 ((shortDayNames.getD wd ("Sun")).toList ++ X) = none := by
  interval_cases wd <;> rfl

theorem parse822z_fails_short_day (wd : Nat) (h : wd < 7) (X : List Char) :
    goTimeParse layoutRFC822Z ((shortDayNames.getD wd ("Sun")).toList ++ X) = none := by
  interval_cases wd <;> rfl

theorem parse850_fails_short_day (wd : Nat) (h : wd < 7) (X : List Char) :
    goTimeParse layoutRFC850 ((shortDayNames.getD wd ("Sun")).toList ++ ',' :: X) = none := by
  interval_cases wd <;> rfl

theorem parse850_fails_digit_head (c : Char) (hdig : isDigitChar c = true) (l : List Char) :
    goTimeParse layoutRFC850 (c :: l) = none := by
  unfold goTimeParse layoutRFC850
  simp only [parseElems, elemParse]
  rw [tryNames_fail_of_digit c hdig l longDayTbl (by decide)]
  rfl

theorem parse1123_fails_digit_head (c : Char) (hdig : isDigitChar c = true) (l : List Char) :
    goTimeParse layoutRFC1123 (c :: l) = none := by
  unfold goTimeParse layoutRFC1123
  simp only [parseElems, elemParse]
  rw [tryNames_fail_of_digit c hdig l shortDayTbl (by decide)]
  rfl

theorem parse1123z_fails_digit_head (c : Char) (hdig : isDigitChar c = true) (l : List Char) :
    goTimeParse layoutRFC1123Z (c :: l) = none := by
  unfold goTimeParse layoutRFC1123Z
  simp only [parseElems, elemParse]
  rw [tryNames_fail_of_digit c hdig l shortDayTbl (by decide)]
  rfl

theorem parse822_fails_year4 (yr : Nat) (hy : yr < 10000) (X : List Char) :
    goTimeParse layoutRFC822 (format4 yr ++ X) = none := by
  unfold goTimeParse
  simp only [layoutRFC822, parseElems, elemParse_day2_first2of4 yr hy,
    elemParse_lit_space_digit_fail (yr / 10 % 10) (by omega)]
  rfl

theorem parse822z_fails_year4 (yr : Nat) (hy : yr < 10000) (X : List Char) :
    goTimeParse layoutRFC822Z (format4 yr ++ X) = none := by
  unfold goTimeParse
  simp only [layoutRFC822Z, parseElems, elemParse_day2_first2of4 yr hy,
    elemParse_lit_space_digit_fail (yr / 10 % 10) (by omega)]
  rfl

theorem parse822_fails_numzone (yr mo dy hh mi : Nat)
    (hmo1 : 1 ≤ mo) (hmo2 : mo ≤ 12) (hdy100 : dy < 100)
    (hh100 : hh < 100) (hmi100 : mi < 100)
    (hy1 : 1969 ≤ yr) (hy2 : yr ≤ 2068) :
    goTimeParse layoutRFC822
      (format2 dy ++ ' ' :: ((monthShortName mo).toList ++ ' ' ::
        (format2 (yr % 100) ++ ' ' :: (format2 hh ++ ':' ::
          (format2 mi ++ ' ' :: ('+' :: '0' :: '0' :: '0' :: '0' :: [])))))) = none := by
  unfold goTimeParse
  simp only [layoutRFC822, parseElems,
    elemParse_day2 dy hdy100, elemParse_lit_space,
    elemParse_monthName mo hmo1 hmo2,
    elemParse_year2 yr hy1 hy2,
    elemParse_hour2 hh hh100, elemParse_lit_colon,
    elemParse_min2 mi hmi100,
    elemParse_zoneAbbr_plus]
  rfl

theorem parse1123_fails_numzone (yr mo dy hh mi ss wd : Nat)
    (hmo1 : 1 ≤ mo) (hmo2 : mo ≤ 12) (hdy100 : dy < 100) (hwd : wd < 7)
    (hh100 : hh < 100) (hmi100 : mi < 100) (hss100 : ss < 100)
    (hy : yr < 10000) :
    goTimeParse layoutRFC1123
      ((shortDayNames.getD wd ("Sun")).toList ++ ',' :: ' ' ::
        (format2 dy ++ ' ' :: ((monthShortName mo).toList ++ ' ' ::
          (format4 yr ++ ' ' :: (format2 hh ++ ':' ::
            (format2 mi ++ ':' ::
              (format2 ss ++ ' ' :: ('+' :: '0' :: '0' :: '0' :: '0' :: [])))))))) =
      none := by
  unfold goTimeParse
  simp only [layoutRFC1123, parseElems,
    elemParse_dayName3 wd hwd,
    elemParse_lit_commaSpace,
    elemParse_day2 dy hdy100, elemParse_lit_space,
    elemParse_monthName mo hmo1 hmo2,
    elemParse_year4 yr hy,
    elemParse_hour2 hh hh100, elemParse_lit_colon,
    elemParse_min2 mi hmi100,
    elemParse_sec2_cons ss hss100 _ ' ' (by decide) (by decide),
    elemParse_zoneAbbr_plus]
  rfl

/-! ## Failure of each earlier layout on each later layout's output -/

theorem toList_mk (l : List Char) : (⟨l⟩ : String).toList = l := rfl

theorem format4_cons (n : Nat) (rest : List Char) :
    format4 n ++ rest = digitChar (n / 1000) :: digitChar (n / 100 % 10) ::
      digitChar (n / 10 % 10) :: digitChar (n % 10) :: rest := rfl

theorem fails_822_on_822z (yr mo dy hh mi : Nat)
    (hmo1 : 1 ≤ mo) (hmo2 : mo ≤ 12) (hdy100 : dy < 100)
    (hh24 : hh < 24) (hmi60 : mi < 60) (hy1 : 1969 ≤ yr) (hy2 : yr ≤ 2068) :
    goTimeParse layoutRFC822
      (goFormat layoutRFC822Z ⟨yr, mo, dy, hh, mi, 0, 0, 0, "UTC"⟩) = none := by
  rw [goFormat_822z, zoneNumChars_zero]
  exact parse822_fails_numzone yr mo dy hh mi hmo1 hmo2 hdy100 (by omega) (by omega) hy1 hy2

theorem fails_822_on_850 (yr mo dy hh mi ss : Nat) :
    goTimeParse layoutRFC822
      (goFormat layoutRFC850 ⟨yr, mo, dy, hh, mi, ss, 0, 0, "UTC"⟩) = none := by
  rw [goFormat_850]
  exact parse822_fails_long_day _ (weekdayIdx_lt _) _

theorem fails_822z_on_850 (yr mo dy hh mi ss : Nat) :
    goTimeParse layoutRFC822Z
      (goFormat layoutRFC850 ⟨yr, mo, dy, hh, mi, ss, 0, 0, "UTC"⟩) = none := by
  rw [goFormat_850]
  exact parse822z_fails_long_day _ (weekdayIdx_lt _) _

theorem fails_822_on_1123 (yr mo dy hh mi ss : Nat) :
    goTimeParse layoutRFC822
      (goFormat layoutRFC1123 ⟨yr, mo, dy, hh, mi, ss, 0, 0, "UTC"⟩) = none := by
  rw [goFormat_1123]
  exact parse822_fails_short_day _ (weekdayIdx_lt _) _

theorem fails_822z_on_1123 (yr mo dy hh mi ss : Nat) :
    goTimeParse layoutRFC822Z
      (goFormat layoutRFC1123 ⟨yr, mo, dy, hh, mi, ss, 0, 0, "UTC"⟩) = none := by
  rw [goFormat_1123]
  exact parse822z_fails_short_day _ (weekdayIdx_lt _) _

theorem fails_850_on_1123 (yr mo dy hh mi ss : Nat) :
    goTimeParse layoutRFC850
      (goFormat layoutRFC1123 ⟨yr, mo, dy, hh, mi, ss, 0, 0, "UTC"⟩) = none := by
  rw [goFormat_1123]
  exact parse850_fails_short_day _ (weekdayIdx_lt _) _

theorem fails_822_on_1123z (yr mo dy hh mi ss : Nat) :
    goTimeParse layoutRFC822
      (goFormat layoutRFC1123Z ⟨yr, mo, dy, hh, mi, ss, 0, 0, "UTC"⟩) = none := by
  rw [goFormat_1123z]
  exact parse822_fails_short_day _ (weekdayIdx_lt _) _

theorem fails_822z_on_1123z (yr mo dy hh mi ss : Nat) :
    goTimeParse layoutRFC822Z
      (goFormat layoutRFC1123Z ⟨yr, mo, dy, hh, mi, ss, 0, 0, "UTC"⟩) = none := by
  rw [goFormat_1123z]
  exact parse822z_fails_short_day _ (weekdayIdx_lt _) _

theorem fails_850_on_1123z (yr mo dy hh mi ss : Nat) :
    goTimeParse layoutRFC850
      (goFormat layoutRFC1123Z ⟨yr, mo, dy, hh, mi, ss, 0, 0, "UTC"⟩) = none := by
  rw [goFormat_1123z]
  exact parse850_fails_short_day _ (weekdayIdx_lt _) _

theorem fails_1123_on_1123z (yr mo dy hh mi ss : Nat)
    (hmo1 : 1 ≤ mo) (hmo2 : mo ≤ 12) (hdy100 : dy < 100)
    (hh24 : hh < 24) (hmi60 : mi < 60) (hss60 : ss < 60) (hy : yr < 10000) :
    goTimeParse layoutRFC1123
      (goFormat layoutRFC1123Z ⟨yr, mo, dy, hh, mi, ss, 0, 0, "UTC"⟩) = none := by
  rw [goFormat_1123z, zoneNumChars_zero]
  exact parse1123_fails_numzone yr mo dy hh mi ss _ hmo1 hmo2 hdy100 (weekdayIdx_lt _)
    (by omega) (by omega) (by omega) hy

theorem fails_822_on_3339 (yr mo dy hh mi ss : Nat) (hy : yr < 10000) :
    goTimeParse layoutRFC822
      (goFormat layoutRFC3339 ⟨yr, mo, dy, hh, mi, ss, 0, 0, "UTC"⟩) = none := by
  rw [goFormat_3339]
  exact parse822_fails_year4 yr hy _

theorem fails_822z_on_3339 (yr mo dy hh mi ss : Nat) (hy : yr < 10000) :
    goTimeParse layoutRFC822Z
      (goFormat layoutRFC3339 ⟨yr, mo, dy, hh, mi, ss, 0, 0, "UTC"⟩) = none := by
  rw [goFormat_3339]
  exact parse822z_fails_year4 yr hy _

theorem fails_850_on_3339 (yr mo dy hh mi ss : Nat) (hy : yr < 10000) :
    goTimeParse layoutRFC850
      (goFormat layoutRFC3339 ⟨yr, mo, dy, hh, mi, ss, 0, 0, "UTC"⟩) = none := by
  rw [goFormat_3339, format4_cons]
  exact parse850_fails_digit_head _ (isDigitChar_digitChar _ (by omega)) _

theorem fails_1123_on_3339 (yr mo dy hh mi ss : Nat) (hy : yr < 10000) :
    goTimeParse layoutRFC1123
      (goFormat layoutRFC3339 ⟨yr, mo, dy, hh, mi, ss, 0, 0, "UTC"⟩) = none := by
  rw [goFormat_3339, format4_cons]
  exact parse1123_fails_digit_head _ (isDigitChar_digitChar _ (by omega)) _

theorem fails_1123z_on_3339 (yr mo dy hh mi ss : Nat) (hy : yr < 10000) :
    goTimeParse layoutRFC1123Z
      (goFormat layoutRFC3339 ⟨yr, mo, dy, hh, mi, ss, 0, 0, "UTC"⟩) = none := by
  rw [goFormat_3339, format4_cons]
  exact parse1123z_fails_digit_head _ (isDigitChar_digitChar _ (by omega)) _

/-! ## Round trip through `parseRawTime`, one lemma per layout -/

theorem roundtrip_822 (yr mo dy hh mi : Nat)
    (hmo1 : 1 ≤ mo) (hmo2 : mo ≤ 12) (hd1 : 1 ≤ dy) (hd2 : dy ≤ daysInMonth yr mo)
    (hh24 : hh < 24) (hmi60 : mi < 60) (hy1 : 1969 ≤ yr) (hy2 : yr ≤ 2068) :
    parseRawTime ⟨goFormat layoutRFC822 ⟨yr, mo, dy, hh, mi, 0, 0, 0, "UTC"⟩⟩ =
      .ok ⟨yr, mo, dy, hh, mi, 0, 0, 0, "UTC"⟩ := by
  simp only [parseRawTime, toList_mk, rawTimeLayouts, firstParse]
  rw [parse_own_822 yr mo dy hh mi hmo1 hmo2 hd1 hd2 hh24 hmi60 hy1 hy2]

theorem roundtrip_822z (yr mo dy hh mi : Nat)
    (hmo1 : 1 ≤ mo) (hmo2 : mo ≤ 12) (hd1 : 1 ≤ dy) (hd2 : dy ≤ daysInMonth yr mo)
    (hh24 : hh < 24) (hmi60 : mi < 60) (hy1 : 1969 ≤ yr) (hy2 : yr ≤ 2068) :
    parseRawTime ⟨goFormat layoutRFC822Z ⟨yr, mo, dy, hh, mi, 0, 0, 0, "UTC"⟩⟩ =
      .ok ⟨yr, mo, dy, hh, mi, 0, 0, 0, ""⟩ := by
  have hdy100 : dy < 100 := by
    have := daysInMonth_le yr mo
    omega
  simp only [parseRawTime, toList_mk, rawTimeLayouts, firstParse]
  rw [fails_822_on_822z yr mo dy hh mi hmo1 hmo2 hdy100 hh24 hmi60 hy1 hy2,
    parse_own_822z yr mo dy hh mi hmo1 hmo2 hd1 hd2 hh24 hmi60 hy1 hy2]

theorem roundtrip_850 (yr mo dy hh mi ss : Nat)
    (hmo1 : 1 ≤ mo) (hmo2 : mo ≤ 12) (hd1 : 1 ≤ dy) (hd2 : dy ≤ daysInMonth yr mo)
    (hh24 : hh < 24) (hmi60 : mi < 60) (hss60 : ss < 60)
    (hy1 : 1969 ≤ yr) (hy2 : yr ≤ 2068) :
    parseRawTime ⟨goFormat layoutRFC850 ⟨yr, mo, dy, hh, mi, ss, 0, 0, "UTC"⟩⟩ =
      .ok ⟨yr, mo, dy, hh, mi, ss, 0, 0, "UTC"⟩ := by
  simp only [parseRawTime, toList_mk, rawTimeLayouts, firstParse]
  rw [fails_822_on_850 yr mo dy hh mi ss, fails_822z_on_850 yr mo dy hh mi ss,
    parse_own_850 yr mo dy hh mi ss hmo1 hmo2 hd1 hd2 hh24 hmi60 hss60 hy1 hy2]

theorem roundtrip_1123 (yr mo dy hh mi ss : Nat)
    (hmo1 : 1 ≤ mo) (hmo2 : mo ≤ 12) (hd1 : 1 ≤ dy) (hd2 : dy ≤ daysInMonth yr mo)
    (hh24 : hh < 24) (hmi60 : mi < 60) (hss60 : ss < 60)
    (hy1 : 1 ≤ yr) (hy2 : yr ≤ 9999) :
    parseRawTime ⟨goFormat layoutRFC1123 ⟨yr, mo, dy, hh, mi, ss, 0, 0, "UTC"⟩⟩ =
      .ok ⟨yr, mo, dy, hh, mi, ss, 0, 0, "UTC"⟩ := by
  simp only [parseRawTime, toList_mk, rawTimeLayouts, firstParse]
  rw [fails_822_on_1123 yr mo dy hh mi ss, fails_822z_on_1123 yr mo dy hh mi ss,
    fails_850_on_1123 yr mo dy hh mi ss,
    parse_own_1123 yr mo dy hh mi ss hmo1 hmo2 hd1 hd2 hh24 hmi60 hss60 hy1 hy2]

theorem roundtrip_1123z (yr mo dy hh mi ss : Nat)
    (hmo1 : 1 ≤ mo) (hmo2 : mo ≤ 12) (hd1 : 1 ≤ dy) (hd2 : dy ≤ daysInMonth yr mo)
    (hh24 : hh < 24) (hmi60 : mi < 60) (hss60 : ss < 60)
    (hy1 : 1 ≤ yr) (hy2 : yr ≤ 9999) :
    parseRawTime ⟨goFormat layoutRFC1123Z ⟨yr, mo, dy, hh, mi, ss, 0, 0, "UTC"⟩⟩ =
      .ok ⟨yr, mo, dy, hh, mi, ss, 0, 0, ""⟩ := by
  have hdy100 : dy < 100 := by
    have := daysInMonth_le yr mo
    omega
  simp only [parseRawTime, toList_mk, rawTimeLayouts, firstParse]
  rw [fails_822_on_1123z yr mo dy hh mi ss, fails_822z_on_1123z yr mo dy hh mi ss,
    fails_850_on_1123z yr mo dy hh mi ss,
    fails_1123_on_1123z yr mo dy hh mi ss hmo1 hmo2 hdy100 hh24 hmi60 hss60 (by omega),
    parse_own_1123z yr mo dy hh mi ss hmo1 hmo2 hd1 hd2 hh24 hmi60 hss60 hy1 hy2]

theorem roundtrip_3339 (yr mo dy hh mi ss : Nat)
    (hmo1 : 1 ≤ mo) (hmo2 : mo ≤ 12) (hd1 : 1 ≤ dy) (hd2 : dy ≤ daysInMonth yr mo)
    (hh24 : hh < 24) (hmi60 : mi < 60) (hss60 : ss < 60)
    (hy1 : 1 ≤ yr) (hy2 : yr ≤ 9999) :
    parseRawTime ⟨goFormat layoutRFC3339 ⟨yr, mo, dy, hh, mi, ss, 0, 0, "UTC"⟩⟩ =
      .ok ⟨yr, mo, dy, hh, mi, ss, 0, 0, "UTC"⟩ := by
  simp only [parseRawTime, toList_mk, rawTimeLayouts, firstParse]
  rw [fails_822_on_3339 yr mo dy hh mi ss (by omega),
    fails_822z_on_3339 yr mo dy hh mi ss (by omega),
    fails_850_on_3339 yr mo dy hh mi ss (by omega),
    fails_1123_on_3339 yr mo dy hh mi ss (by omega),
    fails_1123z_on_3339 yr mo dy hh mi ss (by omega),
    parse_own_3339 yr mo dy hh mi ss hmo1 hmo2 hd1 hd2 hh24 hmi60 hss60 hy1 hy2]

/-- C7 (amended): For every layout in the normalizer's list and every
instant whose fields survive formatting under that layout (UTC zone,
whole-second precision, valid calendar fields, seconds zero for the
RFC-822 layouts, and a year inside the layout's recoverable range),
normalizing the formatted string yields the same instant back. -/
theorem parseRawTime_roundtrip_representable :
    ∀ L ∈ rawTimeLayouts, ∀ T : GoTime, representable L T →
      ∃ T', parseRawTime ⟨goFormat L T⟩ = .ok T' ∧ instEq T' T := by
  intro L hL T hrep
  obtain ⟨hoff, hzn, hns, hmo1, hmo2, hd1, hd2, hh24, hmi60, hss60, hnosec, hy2, hy4⟩ :=
    hrep
  obtain ⟨yr, mo, dy, hh, mi, ss, ns, off, zn⟩ := T
  have hoff' : off = 0 := hoff
  have hzn' : zn = "UTC" := hzn
  have hns' : ns = 0 := hns
  subst hoff' hzn' hns'
  simp only [rawTimeLayouts, List.mem_cons, List.not_mem_nil, or_false] at hL
  rcases hL with rfl | rfl | rfl | rfl | rfl | rfl | rfl
  · have hsec : ss = 0 := hnosec (Or.inl rfl)
    subst hsec
    obtain ⟨hya, hyb⟩ := hy2 (Or.inl rfl)
    exact ⟨⟨yr, mo, dy, hh, mi, 0, 0, 0, "UTC"⟩,
      roundtrip_822 yr mo dy hh mi hmo1 hmo2 hd1 hd2 hh24 hmi60 hya hyb, rfl, rfl⟩
  · have hsec : ss = 0 := hnosec (Or.inr rfl)
    subst hsec
    obtain ⟨hya, hyb⟩ := hy2 (Or.inr (Or.inl rfl))
    exact ⟨⟨yr, mo, dy, hh, mi, 0, 0, 0, ""⟩,
      roundtrip_822z yr mo dy hh mi hmo1 hmo2 hd1 hd2 hh24 hmi60 hya hyb, rfl, rfl⟩
  · obtain ⟨hya, hyb⟩ := hy2 (Or.inr (Or.inr rfl))
    exact ⟨⟨yr, mo, dy, hh, mi, ss, 0, 0, "UTC"⟩,
      roundtrip_850 yr mo dy hh mi ss hmo1 hmo2 hd1 hd2 hh24 hmi60 hss60 hya hyb,
      rfl, rfl⟩
  · obtain ⟨hya, hyb⟩ := hy4 (Or.inl rfl)
    exact ⟨⟨yr, mo, dy, hh, mi, ss, 0, 0, "UTC"⟩,
      roundtrip_1123 yr mo dy hh mi ss hmo1 hmo2 hd1 hd2 hh24 hmi60 hss60 hya hyb,
      rfl, rfl⟩
  · obtain ⟨hya, hyb⟩ := hy4 (Or.inr (Or.inl rfl))
    exact ⟨⟨yr, mo, dy, hh, mi, ss, 0, 0, ""⟩,
      roundtrip_1123z yr mo dy hh mi ss hmo1 hmo2 hd1 hd2 hh24 hmi60 hss60 hya hyb,
      rfl, rfl⟩
  · obtain ⟨hya, hyb⟩ := hy4 (Or.inr (Or.inr (Or.inl rfl)))
    exact ⟨⟨yr, mo, dy, hh, mi, ss, 0, 0, "UTC"⟩,
      roundtrip_3339 yr mo dy hh mi ss hmo1 hmo2 hd1 hd2 hh24 hmi60 hss60 hya hyb,
      rfl, rfl⟩
  · obtain ⟨hya, hyb⟩ := hy4 (Or.inr (Or.inr (Or.inr rfl)))
    rw [goFormat_nano_eq_3339]
    exact ⟨⟨yr, mo, dy, hh, mi, ss, 0, 0, "UTC"⟩,
      roundtrip_3339 yr mo dy hh mi ss hmo1 hmo2 hd1 hd2 hh24 hmi60 hss60 hya hyb,
      rfl, rfl⟩

/-- Counterexample to C7 as stated: the instant 2006-01-02 15:04:05 UTC
formatted under RFC-822 (a supported layout, which drops the seconds)
normalizes back to an instant 5 seconds earlier, so the per-layout round
trip fails in general. -/
theorem parseRawTime_roundtrip_fails_rfc822 :
    layoutRFC822 ∈ rawTimeLayouts ∧
    goFormat layoutRFC822 exTime = ("02 Jan 06 15:04 UTC").toList ∧
    parseRawTime ("02 Jan 06 15:04 UTC") =
      .ok { year := 2006, month := 1, day := 2, hour := 15, minute := 4,
            offset := 0, zoneName := "UTC" } ∧
    ¬instEq { year := 2006, month := 1, day := 2, hour := 15, minute := 4,
              offset := 0, zoneName := "UTC" } exTime :=
  ⟨by decide, rfl, rfl, by decide⟩

/-- Witness for the amended C7 at the layout RFC-1123 and the concrete
instant 2006-01-02 15:04:05 UTC. -/
theorem parseRawTime_roundtrip_representable_witness :
    ∃ T', parseRawTime ⟨goFormat layoutRFC1123 exTime⟩ = .ok T' ∧ instEq T' exTime :=
  parseRawTime_roundtrip_representable layoutRFC1123 (by decide) exTime
    (by
      refine ⟨rfl, rfl, rfl, ?_⟩
      refine ⟨by decide, by decide, by decide, by decide, by decide, by decide, by decide,
        ?_, ?_, ?_⟩
      · intro h
        rcases h with h | h <;> exact absurd h (by decide)
      · intro h
        rcases h with h | h | h <;> exact absurd h (by decide)
      · intro _
        exact ⟨by decide, by decide⟩)
